import Mathlib

/-!
Shallow embedding, in Lean 4, of the content-scouting session engine of the
repository (directory src/bot/v3): session metrics, risk estimator, selector,
temporal/virality analysis, persisted state and the session-manager step.
Python floats are modelled as rationals, Python ints as integers; dictionaries
are modelled as association lists or explicit structures.  Each definition is
annotated with the source file and lines it embeds.
-/

namespace Snap

/-- Python max(0.0, min(1.0, x)) as used throughout the engine. -/
def clamp01 (x : ℚ) : ℚ := max 0 (min 1 x)

/-- Python int(x) for a float x: truncation toward zero. -/
def pyTrunc (q : ℚ) : ℤ := if 0 ≤ q then ⌊q⌋ else -⌊-q⌋

/-- Python round(x) for a float x: round half to even. -/
def pyRound (q : ℚ) : ℤ :=
  let f := ⌊q⌋
  let r := q - (f : ℚ)
  if r < 1/2 then f
  else if (1:ℚ)/2 < r then f + 1
  else if f % 2 = 0 then f else f + 1

/-- Lookup in an association list (first binding wins), modelling a Python
dict access d.get(k). -/
def alGet {α : Type} : List (String × α) → String → Option α
  | [], _ => none
  | (k, v) :: r, key => if k = key then some v else alGet r key

/-- Replace the first binding of the key, or append a new one: models a
Python dict assignment d[k] = v (as far as lookups are concerned). -/
def alPut {α : Type} : List (String × α) → String → α → List (String × α)
  | [], key, v => [(key, v)]
  | (k, w) :: r, key, v =>
      if k = key then (k, v) :: r else (k, w) :: alPut r key v

/-! ## Events (src/bot/v3/mobile_agent/events.py)

The event classes ScrollEvent, PauseEvent, OpenEvent share type, ts,
session id and a metadata dict; the core only ever reads the content_key
metadata entry, the pause duration and the event type, so events are
modelled with exactly those fields (contentKey = "" models an absent
content_key entry). -/

inductive EventKind
  | scroll
  | pause
  | openEv
  deriving DecidableEq, Repr

structure Event where
  kind : EventKind
  ts : ℚ
  seconds : ℚ := 0
  contentKey : String := ""
  deriving DecidableEq, Repr

/-! ## SessionMetrics (src/bot/v3/mobile_agent/metrics.py lines 8-53) -/

structure SessionMetrics where
  session_id : String
  started_ts : ℚ
  last_event_ts : ℚ
  scroll_count : ℤ := 0
  open_count : ℤ := 0
  pause_seconds : ℚ := 0
  deriving DecidableEq, Repr

/-- metrics.py lines 18-19. -/
def SessionMetrics.elapsed_seconds (m : SessionMetrics) (now_ts : ℚ) : ℚ :=
  max 0 (now_ts - m.started_ts)

/-- metrics.py lines 21-25. -/
def SessionMetrics.scroll_rate_per_min (m : SessionMetrics) (now_ts : ℚ) : ℚ :=
  let elapsed := m.elapsed_seconds now_ts
  if elapsed ≤ 0 then 0 else (m.scroll_count : ℚ) / (elapsed / 60)

/-- metrics.py lines 27-44. -/
def SessionMetrics.fatigue_score (m : SessionMetrics) (now_ts : ℚ) : ℚ :=
  let elapsed := m.elapsed_seconds now_ts
  let rpm := m.scroll_rate_per_min now_ts
  let t := min 1 (elapsed / (20 * 60))
  let r := min 1 (rpm / 60)
  let pause_relief := min (3/10) (m.pause_seconds / 120)
  max 0 (min 1 ((55/100) * t + (55/100) * r - pause_relief))

/-- metrics.py lines 46-53.  Scroll and open events increment their counter;
a pause event adds its (unchecked, possibly negative) seconds. -/
def SessionMetrics.apply_event (m : SessionMetrics) (ev : Event) : SessionMetrics :=
  let m0 := { m with last_event_ts := ev.ts }
  match ev.kind with
  | .scroll => { m0 with scroll_count := m0.scroll_count + 1 }
  | .openEv => { m0 with open_count := m0.open_count + 1 }
  | .pause => { m0 with pause_seconds := m0.pause_seconds + ev.seconds }

/-- session_manager.py lines 183-185: events are applied in list order. -/
def applyEvents (m : SessionMetrics) (evs : List Event) : SessionMetrics :=
  evs.foldl SessionMetrics.apply_event m

/-! ## RiskEstimator (src/bot/v3/mobile_agent/risk_estimator.py) -/

inductive RiskLevel
  | SAFE
  | WARNING
  | HIGH_RISK
  deriving DecidableEq, Repr

structure RiskAssessment where
  level : RiskLevel
  justification : String
  remaining_seconds : ℚ
  deriving DecidableEq, Repr

/-- risk_estimator.py line 28: the constructor keeps a floor of 60 seconds
on the configured maximum session duration. -/
def riskInitMax (max_session_seconds : ℚ) : ℚ := max 60 max_session_seconds

/-- risk_estimator.py lines 35-38. -/
def perMin (count : ℚ) (elapsed_seconds : ℚ) : ℚ :=
  if elapsed_seconds ≤ 0 then 0 else count / (elapsed_seconds / 60)

/-- RiskEstimator.assess, risk_estimator.py lines 40-208, with mx standing
for the stored field self._max.  The numeric text interpolated into the
justification strings is elided (kept as the stable prefix); levels,
ordering and remaining_seconds are exact. -/
def riskElapsed (m : SessionMetrics) (now_ts : ℚ) : ℚ := m.elapsed_seconds now_ts

def riskRemaining (mx : ℚ) (m : SessionMetrics) (now_ts : ℚ) : ℚ :=
  max 0 (mx - m.elapsed_seconds now_ts)

def riskOpenRpm (m : SessionMetrics) (now_ts : ℚ) : ℚ :=
  perMin (m.open_count : ℚ) (m.elapsed_seconds now_ts)

def riskPauseRpm (m : SessionMetrics) (now_ts : ℚ) : ℚ :=
  perMin m.pause_seconds (m.elapsed_seconds now_ts)

def riskAssess (mx : ℚ) (m : SessionMetrics) (now_ts : ℚ) : RiskAssessment :=
  if riskElapsed m now_ts ≥ mx then
    ⟨.HIGH_RISK, "temps_max_session_atteint", 0⟩
  else if m.fatigue_score now_ts ≥ 90/100 then
    ⟨.HIGH_RISK, "fatigue", riskRemaining mx m now_ts⟩
  else if ¬riskElapsed m now_ts < 60 ∧ m.scroll_rate_per_min now_ts ≥ 90 then
    ⟨.HIGH_RISK, "scroll_rpm", riskRemaining mx m now_ts⟩
  else if ¬riskElapsed m now_ts < 60 ∧ riskElapsed m now_ts ≥ 5 * 60
      ∧ m.scroll_rate_per_min now_ts ≥ 75 ∧ riskPauseRpm m now_ts ≤ 1/2 then
    ⟨.HIGH_RISK, "scroll_rpm_pause_per_min", riskRemaining mx m now_ts⟩
  else if ¬riskElapsed m now_ts < 60 ∧ riskElapsed m now_ts ≥ 5 * 60
      ∧ riskOpenRpm m now_ts ≥ 20 ∧ riskPauseRpm m now_ts ≤ 8/10 then
    ⟨.HIGH_RISK, "open_rpm_pause_per_min", riskRemaining mx m now_ts⟩
  else if riskRemaining mx m now_ts ≤ 180 then
    ⟨.WARNING, "remaining_s", riskRemaining mx m now_ts⟩
  else if m.fatigue_score now_ts ≥ 70/100 then
    ⟨.WARNING, "fatigue", riskRemaining mx m now_ts⟩
  else if ¬riskElapsed m now_ts < 60 ∧ m.scroll_rate_per_min now_ts ≥ 60 then
    ⟨.WARNING, "scroll_rpm", riskRemaining mx m now_ts⟩
  else if ¬riskElapsed m now_ts < 60 ∧ riskOpenRpm m now_ts ≥ 12 then
    ⟨.WARNING, "open_rpm", riskRemaining mx m now_ts⟩
  else if ¬riskElapsed m now_ts < 60 ∧ riskElapsed m now_ts ≥ 8 * 60
      ∧ riskPauseRpm m now_ts ≤ 8/10 then
    ⟨.WARNING, "pause_per_min", riskRemaining mx m now_ts⟩
  else
    ⟨.SAFE, "within_limits", riskRemaining mx m now_ts⟩

/-- Python whitespace characters (the ASCII subset of the Python \s class
and of str.strip). -/
def isWsChar (c : Char) : Bool :=
  c = ' ' ∨ c = '\t' ∨ c = '\n' ∨ c = '\r' ∨ c = '\x0b' ∨ c = '\x0c'

/-- Python str.strip(): drop whitespace from both ends. -/
def stripChars (cs : List Char) : List Char :=
  ((cs.dropWhile isWsChar).reverse.dropWhile isWsChar).reverse

def pyStrip (s : String) : String := String.mk (stripChars s.toList)

/-! ## Settings (the free-form settings dict of V3State)

Values persisted in the settings map are JSON scalars; the engine reads them
through the coercing getters below.  Non-numeric strings for numeric keys
would raise in Python and are not produced by the repository (settings are
written by the Telegram toggles as numbers and booleans); the string case of
the numeric getters is modelled as the default. -/

inductive SettingVal
  | num (q : ℚ)
  | flag (b : Bool)
  | text (s : String)
  deriving DecidableEq, Repr

def Settings : Type := String → Option SettingVal

/-- Empty settings map: every key is absent, so every getter yields its
default.  This is the state right after a fresh V3State(). -/
def noSettings : Settings := fun _ => none

/-- selector.py pattern float(s.get(key, default) or default): a present but
falsy value (0, False, "") also falls back to the default. -/
def selGetF (s : Settings) (key : String) (dflt : ℚ) : ℚ :=
  match s key with
  | none => dflt
  | some (.num q) => if q = 0 then dflt else q
  | some (.flag b) => if b then 1 else dflt
  | some (.text t) => if t = "" then dflt else dflt

/-- SessionManager._get_float, session_manager.py lines 67-77 (no falsy
fallback, but optional lo/hi clamping). -/
def mgrGetF (s : Settings) (key : String) (dflt : ℚ) (lo hi : Option ℚ) : ℚ :=
  let v : ℚ :=
    match s key with
    | none => dflt
    | some (.num q) => q
    | some (.flag b) => if b then 1 else 0
    | some (.text _) => dflt
  let v := match lo with | none => v | some l => max l v
  match hi with | none => v | some h => min h v

/-- SessionManager._get_bool, session_manager.py lines 53-65.  A numeric
value is truncated to int before the zero test; strings are matched against
the usual truthy and falsy word sets. -/
def mgrGetB (s : Settings) (key : String) (dflt : Bool) : Bool :=
  match s key with
  | none => dflt
  | some (.flag b) => b
  | some (.num q) => pyTrunc q ≠ 0
  | some (.text t) =>
      let sv := String.mk ((pyStrip t).toList.map Char.toLower)
      if sv = "1" ∨ sv = "true" ∨ sv = "yes" ∨ sv = "on" then true
      else if sv = "0" ∨ sv = "false" ∨ sv = "no" ∨ sv = "off" then false
      else dflt

/-! ## Selector (src/bot/v3/selector.py) -/

structure SelectionDecision where
  score : ℚ
  should_keep : Bool
  reason : String
  threshold : ℚ
  details : ℚ × ℚ × ℚ
  score_viral : ℚ := 0
  score_latent : ℚ := 0
  viral_label : String := ""
  deriving DecidableEq, Repr

/-- Python round(x, 3), used for the score-details display values. -/
def round3 (q : ℚ) : ℚ := (pyRound (q * 1000) : ℚ) / 1000

/-- The inner _score closure, selector.py lines 49-55. -/
def selScore (rythme banalite pv : ℚ) (w_b w_p w_r target : ℚ) : ℚ :=
  clamp01 (w_b * (1 - banalite) + w_p * pv + w_r * (1 - |rythme - clamp01 target|))

/-- Selector.decide, selector.py lines 29-119.  The three inputs are the
observation meta entries rythme, banalite, potentiel_viral after the
float(... or 0.0) coercion (absent entries read as 0). -/
def selectorDecide (rythme banalite pv : ℚ) (s : Settings) : SelectionDecision :=
  let w_banalite := clamp01 (selGetF s "weight_banalite" (35/100))
  let w_potentiel := clamp01 (selGetF s "weight_potentiel_viral" (35/100))
  let w_rythme := clamp01 (selGetF s "weight_rythme" (30/100))
  let rythme_target := clamp01 (selGetF s "rythme_target" (45/100))
  let score := selScore rythme banalite pv w_banalite w_potentiel w_rythme rythme_target
  let score := clamp01 score
  let threshold := clamp01 (selGetF s "score_threshold" (65/100))
  let keep : Bool := decide (threshold ≤ score)
  let thr_viral := clamp01 (selGetF s "threshold_viral" (72/100))
  let v_wb := clamp01 (selGetF s "viral_w_banalite" (30/100))
  let v_wp := clamp01 (selGetF s "viral_w_potentiel_viral" (45/100))
  let v_wr := clamp01 (selGetF s "viral_w_rythme" (25/100))
  let v_rt := clamp01 (selGetF s "viral_rythme_target" (50/100))
  let score_viral := selScore rythme banalite pv v_wb v_wp v_wr v_rt
  let thr_latent := clamp01 (selGetF s "threshold_latent" (60/100))
  let l_wb := clamp01 (selGetF s "latent_w_banalite" (45/100))
  let l_wp := clamp01 (selGetF s "latent_w_potentiel_viral" (20/100))
  let l_wr := clamp01 (selGetF s "latent_w_rythme" (35/100))
  let l_rt := clamp01 (selGetF s "latent_rythme_target" (38/100))
  let score_latent := selScore rythme banalite pv l_wb l_wp l_wr l_rt
  let viral_label :=
    if thr_viral ≤ score_viral then "🔥 VIRAL"
    else if thr_latent ≤ score_latent then "💎 LATENT"
    else "❌ IGNORER"
  let parts : List String :=
    (if banalite ≥ 6/10 then ["anomalie quotidienne"] else [])
      ++ [if rythme < 45/100 then "rythme lent" else "rythme dynamique"]
      ++ (if pv ≥ 6/10 then ["potentiel viral"] else [])
  let reason :=
    if parts = [] then (if keep then "sélection" else "non retenu")
    else String.intercalate " + " parts
  { score := score
    should_keep := keep
    reason := reason
    threshold := threshold
    details := (round3 rythme, round3 banalite, round3 pv)
    score_viral := score_viral
    score_latent := score_latent
    viral_label := viral_label }

/-! ## Text generation (src/bot/v3/text_generator.py) -/

/-- Python f-string formatting of a nonnegative float with two decimals,
as in " (score 0.83)". -/
def formatScore2 (q : ℚ) : String :=
  let n := pyRound (q * 100)
  let a := n.natAbs
  let sign := if n < 0 then "-" else ""
  let frac := a % 100
  let fracStr := (if frac < 10 then "0" else "") ++ toString frac
  sign ++ toString (a / 100) ++ "." ++ fracStr

/-- generate_title, text_generator.py lines 4-10 (the source_url argument is
accepted but unused by the source). -/
def generate_title (score : ℚ) (reason : String) (_source_url : String) : String :=
  let base := pyStrip reason
  let base := if base = "" then "Sélection détectée" else base
  let base := if base.length > 70 then (base.take 67).push '…' else base
  base ++ " (score " ++ formatScore2 score ++ ")"

/-- generate_hashtags, text_generator.py lines 13-36; the argument is the
score-details triple (rythme, banalite, potentiel_viral). -/
def generate_hashtags (details : ℚ × ℚ × ℚ) : List String :=
  let tags := ["#reels", "#analyse", "#snapbot"]
  let tags := if details.1 < 4/10 then tags ++ ["#rythmelent"]
    else if details.1 > 7/10 then tags ++ ["#rythmerapide"] else tags
  let tags := if details.2.1 > 65/100 then tags ++ ["#quotidien"] else tags
  let tags := if details.2.2 > 65/100 then tags ++ ["#viral"] else tags
  tags.take 8

/-! ## Temporal analysis (src/bot/v3/temporal_analysis.py)

The relative-publish-time regular expressions (lines 39-55 and line 82) are
embedded by a small explicit matching engine over character lists.  The
engine is specialised to the exact element shapes those patterns use;
greedy runs without backtracking are used only where the following element
cannot match a character of the run (which holds for every embedded
pattern).  Word characters are the ASCII [A-Za-z0-9_] set; the repository
feeds ASCII text plus emoji, both of which this classifies as Python does. -/

def isWordChar (c : Char) : Bool := c.isAlphanum ∨ c = '_'

def isWordO : Option Char → Bool
  | none => false
  | some c => isWordChar c

/-- Alphanumeric in the sense of the character class [0-9A-Za-z]
(no underscore). -/
def isAN (c : Char) : Bool := c.isAlphanum

def digitsToNat (cs : List Char) : ℕ :=
  cs.foldl (fun a c => a * 10 + (c.toNat - 48)) 0

/-- Pattern elements of the embedded regular expressions. -/
inductive Pat
  | lit (s : String) (ci : Bool)
  | alts (ss : List String)
  | ws0
  | ws1
  | digitsG (maxLen : Option ℕ)
  | bound
  | startOrNonAN
  | optDot
  deriving Repr

/-- Case-insensitive or exact literal consumption; returns the rest. -/
def litConsume : List Char → List Char → Bool → Option (List Char)
  | [], s, _ => some s
  | _ :: _, [], _ => none
  | p :: ps, c :: s, ci =>
      if (if ci then p.toLower = c.toLower else p = c) then litConsume ps s ci
      else none

/-- Last character of the first n characters of s, defaulting to prev:
tracks the character preceding the current match position. -/
def lastOfConsumed (s : List Char) (n : ℕ) (prev : Option Char) : Option Char :=
  match (s.take n).getLast? with
  | some c => some c
  | none => prev

/-- Match a pattern element list at the current position.  prev is the
character just before the position (none at string start), cap the value of
the digit capture group once seen.  Alternatives and the optional dot
backtrack; fuel bounds the recursion depth, which is independent of the
subject (at most the pattern length plus the number of alternatives), so
the constant fuel used by the wrappers below is never exhausted. -/
def matchP : ℕ → List Pat → Option Char → List Char → Option ℕ → Option ℕ
  | 0, _, _, _, _ => none
  | fuel+1, pats, prev, s, cap =>
    match pats with
    | [] => some (cap.getD 0)
    | .lit l ci :: ps =>
        match litConsume l.toList s ci with
        | none => none
        | some rest =>
            matchP fuel ps (lastOfConsumed s l.toList.length prev) rest cap
    | .alts [] :: _ => none
    | .alts (a :: more) :: ps =>
        (match litConsume a.toList s true with
         | some rest =>
             match matchP fuel ps (lastOfConsumed s a.toList.length prev) rest cap with
             | some n => some n
             | none => matchP fuel (.alts more :: ps) prev s cap
         | none => matchP fuel (.alts more :: ps) prev s cap)
    | .ws0 :: ps =>
        let w := s.takeWhile isWsChar
        matchP fuel ps (lastOfConsumed s w.length prev) (s.drop w.length) cap
    | .ws1 :: ps =>
        let w := s.takeWhile isWsChar
        if w = [] then none
        else matchP fuel ps (lastOfConsumed s w.length prev) (s.drop w.length) cap
    | .digitsG maxLen :: ps =>
        let d := s.takeWhile Char.isDigit
        if d = [] then none
        else if (match maxLen with | some k => decide (k < d.length) | none => false) then none
        else matchP fuel ps (lastOfConsumed s d.length prev) (s.drop d.length)
               (some (digitsToNat d))
    | .bound :: ps =>
        if isWordO prev ≠ isWordO s.head? then matchP fuel ps prev s cap else none
    | .startOrNonAN :: ps =>
        (match prev with
         | none =>
             (match matchP fuel ps prev s cap with
              | some n => some n
              | none =>
                  match s with
                  | c :: r => if isAN c then none else matchP fuel ps (some c) r cap
                  | [] => none)
         | some _ =>
             match s with
             | c :: r => if isAN c then none else matchP fuel ps (some c) r cap
             | [] => none)
    | .optDot :: ps =>
        match s with
        | c :: r =>
            if c = '·' ∨ c = '•' then
              match matchP fuel ps (some c) r cap with
              | some n => some n
              | none => matchP fuel ps prev s cap
            else matchP fuel ps prev s cap
        | [] => matchP fuel ps prev s cap

/-- re.search: try the pattern at every position, leftmost match wins. -/
def searchLoop (pats : List Pat) : Option Char → List Char → Option ℕ
  | prev, s =>
    match matchP 300 pats prev s none with
    | some n => some n
    | none =>
        match s with
        | [] => none
        | c :: r => searchLoop pats (some c) r

def patSearch (pats : List Pat) (s : String) : Option ℕ :=
  searchLoop pats none s.toList

/-- temporal_analysis.py line 82: the AGE_SECONDS override token
(case-sensitive, 1 to 10 digits). -/
def ageSecondsPats : List Pat :=
  [.bound, .lit "AGE_SECONDS" false, .ws0, .lit "=" false, .ws0,
   .digitsG (some 10), .bound]

inductive AgeUnit
  | minutes
  | hours
  | days
  | weeks
  deriving DecidableEq, Repr

/-- temporal_analysis.py lines 39-55: _REL_TIME_PATTERNS in source order.
The optional-s alternations are expanded in the order the regex engine
tries them (shorter alternative first for (h|heure|heures) style groups,
greedy s first for the heures? style groups). -/
def relTimePats : List (List Pat × AgeUnit) :=
  [ ([.bound, .lit "il y a" true, .ws1, .digitsG none, .ws0,
      .alts ["min", "minute", "minutes"], .bound], .minutes)
  , ([.bound, .lit "il y a" true, .ws1, .digitsG none, .ws0,
      .alts ["h", "heure", "heures"], .bound], .hours)
  , ([.bound, .lit "il y a" true, .ws1, .digitsG none, .ws0,
      .alts ["j", "jour", "jours"], .bound], .days)
  , ([.bound, .lit "il y a" true, .ws1, .digitsG none, .ws0,
      .alts ["sem", "semaine", "semaines"], .bound], .weeks)
  , ([.startOrNonAN, .optDot, .ws0, .digitsG none, .ws0,
      .alts ["min", "mins"], .bound], .minutes)
  , ([.startOrNonAN, .optDot, .ws0, .digitsG none, .ws0,
      .alts ["h", "heures", "heure"], .bound], .hours)
  , ([.startOrNonAN, .optDot, .ws0, .digitsG none, .ws0,
      .alts ["j", "jours", "jour"], .bound], .days)
  , ([.startOrNonAN, .optDot, .ws0, .digitsG none, .ws0,
      .alts ["sem", "semaines", "semaine"], .bound], .weeks)
  , ([.bound, .digitsG none, .ws0, .alts ["minute", "minutes"], .ws1,
      .lit "ago" true, .bound], .minutes)
  , ([.bound, .digitsG none, .ws0, .alts ["hour", "hours"], .ws1,
      .lit "ago" true, .bound], .hours)
  , ([.bound, .digitsG none, .ws0, .alts ["day", "days"], .ws1,
      .lit "ago" true, .bound], .days)
  , ([.bound, .digitsG none, .ws0, .alts ["week", "weeks"], .ws1,
      .lit "ago" true, .bound], .weeks) ]

/-- First pattern of the list with a match anywhere in the text, as in the
loop of temporal_analysis.py lines 93-118. -/
def relTimeSearch (s : String) : Option (AgeUnit × ℕ) :=
  relTimePats.findSome? (fun pu =>
    match patSearch pu.1 s with
    | some n => some (pu.2, n)
    | none => none)

def ageUnitName : AgeUnit → String
  | .minutes => "minutes"
  | .hours => "hours"
  | .days => "days"
  | .weeks => "weeks"

/-- Seconds subtracted from the capture time for n units. -/
def ageDeltaSeconds : AgeUnit → ℕ → ℕ
  | .minutes, n => n * 60
  | .hours, n => n * 3600
  | .days, n => n * 86400
  | .weeks, n => 7 * n * 86400

/-- Resulting age in minutes for n units. -/
def ageMinutesOf : AgeUnit → ℕ → ℚ
  | .minutes, n => n
  | .hours, n => (n : ℚ) * 60
  | .days, n => (n : ℚ) * 1440
  | .weeks, n => (n : ℚ) * 10080

/-- parse_relative_pub_time, temporal_analysis.py lines 68-120.  Times are
UTC timestamps in seconds, modelled as rationals; the result is
(t_pub, age_minutes, reason). -/
def parse_relative_pub_time (raw_text : String) (t_capture : ℚ) :
    Option ℚ × Option ℚ × String :=
  if raw_text = "" then (none, none, "no_text")
  else
    match patSearch ageSecondsPats raw_text with
    | some age_s =>
        (some (t_capture - (age_s : ℚ)), some ((age_s : ℚ) / 60), "matched:age_seconds")
    | none =>
        match relTimeSearch raw_text with
        | some (u, n) =>
            (some (t_capture - (ageDeltaSeconds u n : ℚ)), some (ageMinutesOf u n),
             "matched:" ++ ageUnitName u)
        | none => (none, none, "no_match")

/-! ### Counter extraction (temporal_analysis.py lines 123-359) -/

/-- Round half to even on the nonnegative fraction p / q (q > 0), matching
Python round() on the exact values arising here. -/
def roundHalfEvenNat (p q : ℕ) : ℕ :=
  let n := p / q
  let r := p % q
  if 2 * r < q then n
  else if q < 2 * r then n + 1
  else if n % 2 = 0 then n else n + 1

def isKmChar (c : Char) : Bool := c = 'k' ∨ c = 'K' ∨ c = 'm' ∨ c = 'M'

/-- Numeric value of a compact count: integer digits a, fraction digits of
value b and length len, optional k/m suffix.  Computed exactly as
round((a + b / 10^len) * mult). -/
def pccValue (a b len : ℕ) (suf : Option Char) : ℤ :=
  let mult : ℕ := match suf with
    | some c => if c = 'k' ∨ c = 'K' then 1000 else 1000000
    | none => 1
  (roundHalfEvenNat ((a * 10 ^ len + b) * mult) (10 ^ len) : ℤ)

/-- re.fullmatch of (digits, optional [.,]digits fraction, optional k/m
suffix) against the space-stripped token, temporal_analysis.py line 134. -/
def pccFull (cs : List Char) : Option (ℕ × ℕ × ℕ × Option Char) :=
  let d1 := cs.takeWhile Char.isDigit
  if d1 = [] then none
  else
    let r1 := cs.drop d1.length
    let fr : ℕ × ℕ × List Char :=
      match r1 with
      | sep :: r2 =>
          if sep = '.' ∨ sep = ',' then
            let d2 := r2.takeWhile Char.isDigit
            if d2 = [] then (0, 0, r1) else (digitsToNat d2, d2.length, r2.drop d2.length)
          else (0, 0, r1)
      | [] => (0, 0, r1)
    match fr.2.2 with
    | [] => some (digitsToNat d1, fr.1, fr.2.1, none)
    | [c] => if isKmChar c then some (digitsToNat d1, fr.1, fr.2.1, some c) else none
    | _ => none

/-- re.search of the relaxed number pattern (digits, optional fraction,
optional whitespace then k/m suffix) in the original token,
temporal_analysis.py line 136: leftmost match starts at the first digit. -/
def pccSearch (cs : List Char) : Option (ℕ × ℕ × ℕ × Option Char) :=
  let rest := cs.dropWhile (fun c => ¬ c.isDigit)
  let d1 := rest.takeWhile Char.isDigit
  if d1 = [] then none
  else
    let r1 := rest.drop d1.length
    let fr : ℕ × ℕ × List Char :=
      match r1 with
      | sep :: r2 =>
          if sep = '.' ∨ sep = ',' then
            let d2 := r2.takeWhile Char.isDigit
            if d2 = [] then (0, 0, r1) else (digitsToNat d2, d2.length, r2.drop d2.length)
          else (0, 0, r1)
      | [] => (0, 0, r1)
    let afterWs := fr.2.2.drop (fr.2.2.takeWhile isWsChar).length
    let suf : Option Char :=
      match afterWs with
      | c :: _ => if isKmChar c then some c else none
      | [] => none
    some (digitsToNat d1, fr.1, fr.2.1, suf)

/-- parse_compact_count, temporal_analysis.py lines 123-159.  Narrow and
non-breaking spaces are normalised to plain spaces; the float conversion
and multiplication are carried out exactly on rationals (no binary float
noise is modelled). -/
def parse_compact_count (s : String) : Option ℤ :=
  if s = "" then none
  else
    let cs := (pyStrip s).toList
    let cs := cs.map (fun c => if c.toNat = 0x202f ∨ c.toNat = 0xa0 then ' ' else c)
    let noSpace := cs.filter (fun c => ¬ isWsChar c)
    match pccFull noSpace with
    | some (a, b, len, suf) => some (pccValue a b len suf)
    | none =>
        match pccSearch cs with
        | some (a, b, len, suf) => some (pccValue a b len suf)
        | none => none

/-- Characters admitted inside a count token after its leading digit. -/
def classC (c : Char) : Bool := c.isDigit ∨ isWsChar c ∨ c = '.' ∨ c = ','

/-- Match of the count-token pattern (word boundary, digit, run of digits,
spaces, dots and commas, optional spaces, optional k/m suffix, word
boundary) at the current position, with the backtracking order of the
regex engine: longest run first, longest whitespace tail first, suffix
present before absent.  Returns the matched characters and the rest. -/
def tokenMatchAt (prev : Option Char) (s : List Char) : Option (List Char × List Char) :=
  match s with
  | [] => none
  | d :: tail =>
    if ¬ d.isDigit ∨ isWordO prev then none
    else
      let full := tail.takeWhile classC
      let afterFull := tail.drop full.length
      (List.range (full.length + 1)).reverse.findSome? (fun k =>
        let consumedK := full.take k
        let remK := full.drop k ++ afterFull
        let wsMax := remK.takeWhile isWsChar
        (List.range (wsMax.length + 1)).reverse.findSome? (fun j =>
          let consumedJ := wsMax.take j
          let remJ := remK.drop j
          let withSuf : Option (List Char × List Char) :=
            match remJ with
            | c :: r =>
                if isKmChar c ∧ ¬ isWordO r.head? then
                  some (d :: (consumedK ++ consumedJ ++ [c]), r)
                else none
            | [] => none
          match withSuf with
          | some res => some res
          | none =>
              let lastChar : Char :=
                match consumedJ.getLast? with
                | some c => c
                | none =>
                    match consumedK.getLast? with
                    | some c => c
                    | none => d
              if isWordChar lastChar ≠ isWordO remJ.head? then
                some (d :: (consumedK ++ consumedJ), remJ)
              else none))

/-- re.finditer of the count-token pattern: non-overlapping matches, the
scan resuming after each match.  fuel starts at the subject length plus
one; every step consumes at least one character. -/
def findTokensAux : ℕ → Option Char → List Char → List (List Char)
  | 0, _, _ => []
  | fuel+1, prev, s =>
      match tokenMatchAt prev s with
      | some (tok, rest) => tok :: findTokensAux fuel tok.getLast? rest
      | none =>
          match s with
          | [] => []
          | c :: r => findTokensAux fuel (some c) r

def findCountTokens (s : String) : List String :=
  (findTokensAux (s.toList.length + 1) none s.toList).map (fun cs => String.mk cs)

/-- Python str.splitlines restricted to the newline separator (the only one
occurring in the OCR blobs handled here). -/
def splitNlAux : List Char → List Char → List (List Char)
  | [], acc => [acc.reverse]
  | c :: r, acc => if c = '\n' then acc.reverse :: splitNlAux r [] else splitNlAux r (c :: acc)

def pySplitlines (s : String) : List String :=
  if s = "" then []
  else
    let ps := (splitNlAux s.toList []).map String.mk
    if ps.getLast? = some "" then ps.dropLast else ps

/-- Count tokens of one blob of text, filtered and parsed as in
_extract_counts_in_order (temporal_analysis.py lines 196-219). -/
def countsOfBlob (t : String) : List ℤ :=
  (findCountTokens t).foldl (fun acc tok =>
    let tk := pyStrip tok
    if tk = "" ∨ tk.toList.contains ':' ∨ tk.toList.contains '%' then acc
    else
      match parse_compact_count tk with
      | some v => acc ++ [v]
      | none => acc) []

/-- Python _extract_counts_in_order, temporal_analysis.py lines 188-226:
line-based extraction first, whole-blob fallback, then de-duplication of
sequential repeats. -/
def extractCountsInOrder (sectionText : String) : List ℤ :=
  if sectionText = "" then []
  else
    let out := (pySplitlines sectionText).foldl (fun acc line =>
      let t := pyStrip line
      if t = "" then acc else acc ++ countsOfBlob t) []
    let out := if out = [] then countsOfBlob sectionText else out
    out.foldl (fun acc v => if acc.getLast? = some v then acc else acc ++ [v]) []

/-- Index of the first occurrence of pat in hay. -/
def findSubIdx (hay pat : List Char) : Option ℕ :=
  match hay with
  | [] => if pat = [] then some 0 else none
  | _ :: tl =>
      if pat.isPrefixOf hay then some 0
      else (findSubIdx tl pat).map (· + 1)

/-- Python _extract_section, temporal_analysis.py lines 177-186: the text after
the tag, up to the next blank-line-plus-bracket separator. -/
def extractSection (text tag : String) : String :=
  let cs := text.toList
  match findSubIdx cs tag.toList with
  | none => ""
  | some i =>
      let rest := cs.drop (i + tag.toList.length)
      match findSubIdx rest "\n\n[".toList with
      | none => String.mk rest
      | some j => String.mk (rest.take j)

/-- The seven optional engagement counters. -/
structure Counters where
  likes : Option ℤ := none
  shares : Option ℤ := none
  sends : Option ℤ := none
  saves : Option ℤ := none
  remixes : Option ℤ := none
  comments : Option ℤ := none
  views : Option ℤ := none
  deriving DecidableEq, Repr

/-- The right-column branch of extract_metrics_from_ocr_text,
temporal_analysis.py lines 229-255: when the text carries the
[OCR_RIGHT_COLUMN] tag with non-blank content, counts are read
top-to-bottom and mapped positionally as likes, comments, remixes, sends,
saves (shares aliases sends; views are never taken from this column).
Returns none when this branch is not taken (empty text or no tagged
column), in which case the source falls through to the label-based and
layout-heuristic strategies of lines 257-359, which no claim exercises and
which are not embedded. -/
def extractMetricsRightColumn (raw_text : String) : Option Counters :=
  if raw_text = "" then none
  else
    let right := extractSection raw_text "[OCR_RIGHT_COLUMN]\n"
    if pyStrip right = "" then none
    else
      let ordered := extractCountsInOrder right
      some { likes := ordered.get? 0
             comments := ordered.get? 1
             remixes := ordered.get? 2
             sends := ordered.get? 3
             saves := ordered.get? 4
             shares := ordered.get? 3
             views := none }

/-! ### STV and classification (temporal_analysis.py lines 389-454) -/

/-- compute_stv, temporal_analysis.py lines 389-427.  Returns none when
age_minutes is not positive (the source raises ValueError there); otherwise
(like_v, share_v, comment_v, stv, send_v, save_v, remix_v). -/
def compute_stv (likes shares comments : ℤ) (age_minutes : ℚ)
    (sends saves remixes : Option ℤ) :
    Option (ℚ × ℚ × ℚ × ℚ × Option ℚ × Option ℚ × Option ℚ) :=
  if age_minutes ≤ 0 then none
  else
    let like_v := (likes : ℚ) / age_minutes
    let share_v := (shares : ℚ) / age_minutes
    let comment_v := (comments : ℚ) / age_minutes
    let send_v := sends.map (fun n => (n : ℚ) / age_minutes)
    let save_v := saves.map (fun n => (n : ℚ) / age_minutes)
    let remix_v := remixes.map (fun n => (n : ℚ) / age_minutes)
    let stv := like_v * (45/100) + share_v * (40/100) + comment_v * (15/100)
    let stv :=
      if send_v ≠ none ∨ save_v ≠ none ∨ remix_v ≠ none then
        let stv2 := like_v * (30/100) + comment_v * (10/100)
        let stv2 := stv2 + (match send_v with
          | some sv => sv * (30/100)
          | none => share_v * (30/100))
        let stv2 := stv2 + (match save_v with
          | some sv => sv * (20/100)
          | none => 0)
        let stv2 := stv2 + (match remix_v with
          | some rv => rv * (10/100)
          | none => 0)
        (1/2) * stv + (1/2) * stv2
      else stv
    some (like_v, share_v, comment_v, stv, send_v, save_v, remix_v)

/-- classify, temporal_analysis.py lines 430-454.  The three thresholds are
the env-tunable values V3_STV_PREVIRAL_MIN, V3_STV_PROMISING_MIN and
V3_STV_UNDERPERF_MAX (defaults 3.0, 1.2, 0.25). -/
def classify (preViralMin promisingMin underperfMax : ℚ)
    (age_minutes : Option ℚ) (likes comments : Option ℤ) (stv : Option ℚ) : String :=
  match age_minutes, stv with
  | none, _ => "🟡 Normale"
  | some _, none => "🟡 Normale"
  | some age, some s =>
      if 360 < age ∧ (100000 ≤ likes.getD 0 ∨ 5000 ≤ comments.getD 0) then
        "🔥 Déjà explosée"
      else if age < 120 ∧ preViralMin ≤ s then "🚀 Pré-virale (phase test)"
      else if promisingMin ≤ s then "🟠 Prometteuse"
      else if s ≤ underperfMax then "🟢 Sous-performante"
      else "🟡 Normale"

/-- Result record of the on-demand analysis (the TemporalAnalysis dataclass,
temporal_analysis.py lines 10-36, without the two provenance-only string
fields ocr_source and ocr_pub_raw). -/
structure TemporalAnalysis where
  t_capture_utc : ℚ
  t_pub_utc : Option ℚ
  age_minutes : Option ℚ
  likes : Option ℤ
  shares : Option ℤ
  sends : Option ℤ
  saves : Option ℤ
  remixes : Option ℤ
  comments : Option ℤ
  views : Option ℤ
  like_velocity : Option ℚ
  share_velocity : Option ℚ
  send_velocity : Option ℚ
  save_velocity : Option ℚ
  remix_velocity : Option ℚ
  comment_velocity : Option ℚ
  stv : Option ℚ
  category : String
  notes : String := ""
  deriving DecidableEq, Repr

/-- The analysis core of analyze_from_meta, temporal_analysis.py lines
477-543: age parsing, velocity and STV computation and classification.
The counter sourcing of lines 479-519 (which of the meta keys supplied the
seven counters) is abstracted into the explicit counter arguments; ocrText
is the already-selected OCR text, empty when none was found. -/
def analyzeCore (thr : ℚ × ℚ × ℚ) (ocrText : String) (t_capture : ℚ)
    (likes shares sends saves remixes comments views : Option ℤ) : TemporalAnalysis :=
  let parsed := parse_relative_pub_time ocrText t_capture
  let t_pub := parsed.1
  let age_min := parsed.2.1
  let pub_reason := parsed.2.2
  let vels : (Option ℚ × Option ℚ × Option ℚ × Option ℚ × Option ℚ × Option ℚ × Option ℚ) × String :=
    match age_min with
    | none => ((none, none, none, none, none, none, none),
        "âge indisponible (" ++ pub_reason ++ ")")
    | some age =>
        match likes, comments with
        | some lk, some cm =>
            if shares ≠ none ∨ sends ≠ none then
              let sharesArg : ℤ := match shares with
                | some v => v
                | none => sends.getD 0
              match compute_stv lk sharesArg cm age sends saves remixes with
              | some (lv, shv, cv, stv, sev, sav, rv) =>
                  ((some lv, some shv, sev, sav, rv, some cv, some stv), "")
              | none => ((none, none, none, none, none, none, none), "STV non calculable")
            else ((none, none, none, none, none, none, none), "métriques OCR incomplètes")
        | _, _ => ((none, none, none, none, none, none, none), "métriques OCR incomplètes")
  let v := vels.1
  { t_capture_utc := t_capture
    t_pub_utc := t_pub
    age_minutes := age_min
    likes := likes
    shares := shares
    sends := sends
    saves := saves
    remixes := remixes
    comments := comments
    views := views
    like_velocity := v.1
    share_velocity := v.2.1
    send_velocity := v.2.2.1
    save_velocity := v.2.2.2.1
    remix_velocity := v.2.2.2.2.1
    comment_velocity := v.2.2.2.2.2.1
    stv := v.2.2.2.2.2.2
    category := classify thr.1 thr.2.1 thr.2.2 age_min likes comments v.2.2.2.2.2.2
    notes := vels.2 }

/-! ## Persisted state (src/bot/v3/state.py) -/

inductive DeviceStatus
  | READY
  | DISCONNECTED
  | LOCKED
  deriving DecidableEq, Repr

def DeviceStatus.name : DeviceStatus → String
  | .READY => "READY"
  | .DISCONNECTED => "DISCONNECTED"
  | .LOCKED => "LOCKED"

def RiskLevel.name : RiskLevel → String
  | .SAFE => "SAFE"
  | .WARNING => "WARNING"
  | .HIGH_RISK => "HIGH_RISK"

inductive VStatus
  | pending
  | approved
  | rejected
  | deleted
  deriving DecidableEq, Repr

/-- The meta entries of a video item that SessionManager reads or writes
(state.py line 49 declares meta as a free-form dict).  The display-only
device_actions strings (formatted pause durations) are not modelled. -/
structure ItemMeta where
  events : List String := []
  extracted_shortcode : String := ""
  clipboard_url : String := ""
  selector_reason : String := ""
  viral_label : String := ""
  score_viral : ℚ := 0
  score_latent : ℚ := 0
  observed_at : ℚ := 0
  seen_count : ℤ := 0
  last_seen_ts : ℚ := 0
  last_seen_session_id : String := ""
  content_key : String := ""
  deriving DecidableEq, Repr

/-- VideoItem, state.py lines 15-49 (score_details is the rythme, banalite,
potentiel_viral triple the selector produces). -/
structure VideoItem where
  internal_id : String
  source : String
  source_url : String
  score : ℚ
  status : VStatus
  timestamp : ℚ
  session_id : String
  threshold : ℚ := 0
  score_details : ℚ × ℚ × ℚ := (0, 0, 0)
  reason : String := ""
  score_viral : ℚ := 0
  score_latent : ℚ := 0
  viral_label : String := ""
  title : String := ""
  hashtags : List String := []
  local_media_path : String := ""
  media_status : String := ""
  media_message : String := ""
  message_chat_id : Option ℤ := none
  message_id : Option ℤ := none
  meta : ItemMeta := {}
  deriving DecidableEq, Repr

/-- V3State, state.py lines 52-90.  The last_risk snapshot is stored as the
assessment value itself (risk_to_dict is its serialisation). -/
structure V3State where
  version : ℤ := 1
  active_session_id : Option String := none
  settings : Settings := noSettings
  last_session_stop_reason : Option String := none
  session_paused : Bool := false
  control_chat_id : Option ℤ := none
  videos : List (String × VideoItem) := []
  session_metrics : List (String × SessionMetrics) := []
  last_risk : Option RiskAssessment := none
  last_risk_level : Option String := none
  last_risk_alert_ts : ℚ := 0
  device_status : Option DeviceStatus := none
  device_status_ts : ℚ := 0
  last_device_alert_ts : ℚ := 0
  last_instagram_launch_ts : ℚ := 0
  last_reels_nav_ts : ℚ := 0
  last_update_id : ℤ := 0

/-- A fresh V3State(), all fields at their defaults. -/
def defaultV3State : V3State := {}

/-! ## Storage (src/bot/v3/storage.py lines 24-35)

The file system outcome of reading the state file is modelled explicitly.
The claims under test concern the branches that never reach dict_to_state,
so the conversion of a well-formed JSON object (state.py lines 183-255) is
kept as a parameter: it returns none when the Python conversion would
raise, which the surrounding try of load_state swallows. -/

inductive JsonVal
  | obj (fields : List (String × JsonVal))
  | other

inductive ReadResult
  | missing
  | unreadable
  | notJson
  | jsonDoc (v : JsonVal)

/-- load_state, storage.py lines 24-35: a missing file, an unreadable file,
text that is not JSON, a JSON document that is not an object, and a raising
dict_to_state all yield a fresh default V3State. -/
def load_state (dts : List (String × JsonVal) → Option V3State) :
    ReadResult → V3State
  | .missing => defaultV3State
  | .unreadable => defaultV3State
  | .notJson => defaultV3State
  | .jsonDoc (.obj fields) => (dts fields).getD defaultV3State
  | .jsonDoc .other => defaultV3State

/-! ## SessionManager (src/bot/v3/session_manager.py)

The collaborator calls a single step makes (device probe, agent events,
share-sheet capture, identifiers, clock reads, random draws) are gathered
in a StepEnv record; step itself is then a pure function of that record and
the loaded state, mirroring the control flow of SessionManager.step.  The
agent is the SimulatedMobileAgent the repository wires in
(telegram/integration.py line 493): its pause events clamp negative
durations (simulated_agent.py line 67) and its scroll and open events carry
the current content key.  Successive clock reads within one step are
modelled by the single field now; the device recovery and preflight blocks
(lines 255-482), which only touch the two navigation timestamps and
perform external I/O, are abstracted into the two preflight fields. -/

structure SessionStats where
  seen : ℕ := 0
  kept : ℕ := 0
  deriving DecidableEq, Repr

structure StepEnv where
  status : DeviceStatus
  now : ℚ
  newSessionId : String
  newVideoId : String
  stableShortcode : String → String
  androidPresent : Bool
  inputEnabled : Bool
  didSwipe : Bool
  fgMismatchPostSwipe : Bool
  adProbeAvailable : Bool
  adDetected : Bool
  scrollTs : ℚ
  pauseTs : ℚ
  openTs : ℚ
  watchTs : ℚ
  contentKey : String
  rPause : ℚ
  rWatch : ℚ
  shouldOpen : Bool
  captureAvailable : Bool
  captureResult : String
  preflightLaunchTs : ℚ
  preflightReelsTs : ℚ

/-- Python truthiness of an optional string (None and "" are falsy). -/
def optStrTruthy : Option String → Bool
  | none => false
  | some s => ¬ (s = "")

/-- Python _random_scroll_pause_seconds, session_manager.py lines 114-143, with r
standing for the random.random() draw of this step. -/
def random_scroll_pause_seconds (s : Settings) (r : ℚ) : ℚ :=
  let base := mgrGetF s "scroll_pause_seconds" (8/10) (some (5/100)) (some 15)
  let lo_cfg := mgrGetF s "scroll_pause_min_seconds" 0 (some 0) (some 15)
  let hi_cfg := mgrGetF s "scroll_pause_max_seconds" 0 (some 0) (some 15)
  if 0 < lo_cfg ∨ 0 < hi_cfg then
    let lo := if 0 < lo_cfg then lo_cfg else base
    let hi := if 0 < hi_cfg then hi_cfg else base
    let lo2 := min lo hi
    let hi2 := max lo hi
    let lo3 := max (5/100) lo2
    let hi3 := min 15 hi2
    if hi3 ≤ lo3 then lo3 else lo3 + (hi3 - lo3) * r
  else
    let jitter := mgrGetF s "scroll_pause_jitter_ratio" (35/100) (some 0) (some (90/100))
    let lo := max (5/100) (base * (1 - jitter))
    let hi := min 15 (base * (1 + jitter))
    if hi ≤ lo then lo else lo + (hi - lo) * r

/-- Python _compute_selection_features, session_manager.py lines 145-163:
(rythme, banalite, potentiel_viral), each clamped to [0,1]. -/
def compute_selection_features (events : List Event) : ℚ × ℚ × ℚ :=
  let pauses := (events.filter (fun e => e.kind = .pause)).map Event.seconds
  let avg_pause := pauses.sum / (max 1 pauses.length : ℕ)
  let rythme := 9/10 - min 1 (max 0 ((avg_pause - 1/2) / (7/2))) * (7/10)
  let opened := events.any (fun e => e.kind = .openEv)
  let pv := 55/100 + (if opened then 25/100 else 0)
  (clamp01 rythme, clamp01 (55/100), clamp01 pv)

def isReelChar (c : Char) : Bool := c.isAlphanum ∨ c = '_' ∨ c = '-'

/-- The re.search for /reel/([A-Za-z0-9_-]\x7b5,\x7d) over the captured
URL, session_manager.py lines 662-665. -/
def reelLoop : List Char → Option String
  | [] => none
  | c :: r =>
      if "/reel/".toList.isPrefixOf (c :: r) then
        let run := ((c :: r).drop 6).takeWhile isReelChar
        if 5 ≤ run.length then some (String.mk run) else reelLoop r
      else reelLoop r

def findReelShortcode (s : String) : Option String := reelLoop s.toList

/-- The events one auto-scroll step emits (session_manager.py lines
494, 561-564 and 573-595): a scroll, the jittered scroll pause, and
optionally an open plus its watch pause.  Returns (events, opened). -/
def stepEvents (env : StepEnv) (s : Settings) : List Event × Bool :=
  let evScroll : Event := { kind := .scroll, ts := env.scrollTs, contentKey := env.contentKey }
  let pause_s := random_scroll_pause_seconds s env.rPause
  let evPause : Event := { kind := .pause, ts := env.pauseTs, seconds := max 0 pause_s }
  if env.shouldOpen then
    let ow_min := mgrGetF s "open_watch_min_seconds" (3/2) (some (1/10)) (some 60)
    let ow_max := mgrGetF s "open_watch_max_seconds" 4 (some (1/10)) (some 60)
    let lo_w := min ow_min ow_max
    let hi_w := max ow_min ow_max
    let watch := lo_w + (hi_w - lo_w) * env.rWatch
    ([evScroll, evPause,
      { kind := .openEv, ts := env.openTs, contentKey := env.contentKey },
      { kind := .pause, ts := env.watchTs, seconds := max 0 watch }], true)
  else ([evScroll, evPause], false)

/-- The stable-identity search over the reversed event list,
session_manager.py lines 614-625. -/
def findContentKey (events : List Event) : Option String :=
  events.reverse.findSome? (fun e =>
    if pyStrip e.contentKey = "" then none else some (pyStrip e.contentKey))

/-- Python _ensure_metrics, session_manager.py lines 175-181: the stored metrics
of the session, or fresh ones started now. -/
def stepMetrics (st : V3State) (sid : String) (now : ℚ) : SessionMetrics :=
  match alGet st.session_metrics sid with
  | some m => m
  | none => { session_id := sid, started_ts := now, last_event_ts := now }

/-- Post-swipe recovery early return, session_manager.py lines 498-535:
taken when input automation is active and the swipe failed or Instagram
lost the foreground. -/
def recoveryGuard (env : StepEnv) : Bool :=
  env.androidPresent ∧ env.inputEnabled ∧ (¬ env.didSwipe ∨ env.fgMismatchPostSwipe)

/-- Advertisement skip early return, session_manager.py lines 539-558. -/
def adGuard (env : StepEnv) : Bool :=
  env.androidPresent ∧ env.inputEnabled ∧ env.didSwipe ∧ env.adProbeAvailable
    ∧ env.adDetected

/-- The tail of SessionManager.step after the events are applied
(session_manager.py lines 597-782): selector decision, identity
resolution, conditional reference capture, item creation or in-place
update, risk assessment and the HIGH_RISK auto-stop of the new-item path. -/
def stepDecision (s : Settings) (events : List Event) : SelectionDecision :=
  selectorDecide (compute_selection_features events).1
    (compute_selection_features events).2.1 (compute_selection_features events).2.2 s

/-- The conditional reference capture, session_manager.py lines 627-644:
the URL is only extracted when the selector kept the item, and only when
the share-sheet helper is available; failures yield the empty string. -/
def stepSourceUrl (env : StepEnv) (keep_requested : Bool) : String :=
  if keep_requested ∧ env.androidPresent ∧ env.captureAvailable then env.captureResult
  else ""

def stepIdentityKey (env : StepEnv) (events : List Event) : String :=
  (findContentKey events).getD env.newVideoId

def stepShortcode (env : StepEnv) (source_url : String) (events : List Event) : String :=
  match findReelShortcode source_url with
  | some sc => sc
  | none => env.stableShortcode (stepIdentityKey env events)

/-- The stable internal id a step resolves, session_manager.py lines
660-669. -/
def stepVid (env : StepEnv) (source_url : String) (events : List Event) : String :=
  "vid_" ++ stepShortcode env source_url events

/-- The keep outcome of one step, session_manager.py line 642: the selector
kept the item and the captured reference is non-empty. -/
def stepKeepOk (env : StepEnv) (s : Settings) (events : List Event) : Bool :=
  (stepDecision s events).should_keep ∧
    stepSourceUrl env (stepDecision s events).should_keep ≠ ""

/-- The freshly-created item of the new-identity path, session_manager.py
lines 723-758: status pending exactly when the keep succeeded with a
captured reference, deleted otherwise. -/
def stepNewItem (env : StepEnv) (s : Settings) (sid : String) (events : List Event) :
    VideoItem :=
  let decision := stepDecision s events
  let content_key := findContentKey events
  let source_url := stepSourceUrl env decision.should_keep
  { internal_id := stepVid env source_url events
    source := "instagram"
    source_url := source_url
    score := decision.score
    status := if stepKeepOk env s events then .pending else .deleted
    timestamp := env.now
    session_id := sid
    threshold := decision.threshold
    score_details := decision.details
    reason := decision.reason
    score_viral := decision.score_viral
    score_latent := decision.score_latent
    viral_label := decision.viral_label
    title := generate_title decision.score decision.reason source_url
    hashtags := generate_hashtags decision.details
    meta := {
      events := events.map (fun e =>
        match e.kind with
        | .scroll => "scroll"
        | .pause => "pause"
        | .openEv => "open")
      extracted_shortcode := (findReelShortcode source_url).getD ""
      clipboard_url := source_url
      selector_reason := decision.reason
      viral_label := decision.viral_label
      score_viral := decision.score_viral
      score_latent := decision.score_latent
      observed_at := env.now
      seen_count := 1
      last_seen_ts := env.now
      content_key := content_key.getD "" } }

/-- Promotion condition of the re-observation path, session_manager.py
lines 699-707: previously deleted and now kept with a captured
reference. -/
def stepPromoted (env : StepEnv) (s : Settings) (events : List Event)
    (existing : VideoItem) : Bool :=
  existing.status = .deleted ∧ stepKeepOk env s events

/-- The in-place update of a re-observed item, session_manager.py lines
673-707: refreshed timestamps, seen counters, scoring fields and
regenerated text, with the deleted-to-pending promotion and no other
status change. -/
def stepUpdatedItem (env : StepEnv) (s : Settings) (sid : String)
    (events : List Event) (existing : VideoItem) : VideoItem :=
  let decision := stepDecision s events
  let source_url := stepSourceUrl env decision.should_keep
  let e1 := { existing with
    timestamp := env.now
    meta := { existing.meta with
      last_seen_ts := env.now
      seen_count := existing.meta.seen_count + 1
      last_seen_session_id := sid }
    score := decision.score
    threshold := decision.threshold
    score_details := decision.details
    reason := decision.reason
    score_viral := decision.score_viral
    score_latent := decision.score_latent
    viral_label := decision.viral_label
    source_url := if source_url ≠ "" then source_url else existing.source_url }
  let e2 := { e1 with
    title := generate_title e1.score e1.reason e1.source_url
    hashtags := generate_hashtags e1.score_details }
  if stepPromoted env s events existing then { e2 with status := .pending } else e2

def stepCommit (env : StepEnv) (mx : ℚ) (st : V3State) (sid : String)
    (m : SessionMetrics) (events : List Event) :
    V3State × SessionStats × Option VideoItem × RiskAssessment :=
  let source_url := stepSourceUrl env (stepDecision st.settings events).should_keep
  let vid := stepVid env source_url events
  match alGet st.videos vid with
  | some existing =>
      let e3 := stepUpdatedItem env st.settings sid events existing
      let risk := riskAssess mx m env.now
      let st1 := { st with
        videos := alPut st.videos vid e3
        last_risk := some risk
        last_risk_level := some risk.level.name }
      if stepPromoted env st.settings events existing then (st1, ⟨1, 1⟩, some e3, risk)
      else if e3.status = .pending then (st1, ⟨1, 0⟩, some e3, risk)
      else (st1, ⟨1, 0⟩, none, risk)
  | none =>
      let item := stepNewItem env st.settings sid events
      let risk := riskAssess mx m env.now
      let st1 := { st with
        videos := alPut st.videos vid item
        last_risk := some risk
        last_risk_level := some risk.level.name }
      let st2 :=
        if risk.level = .HIGH_RISK ∧ mgrGetB st.settings "risk_safety_enabled" true then
          { st1 with active_session_id := none, last_session_stop_reason := some "high_risk" }
        else st1
      if stepKeepOk env st.settings events then (st2, ⟨1, 1⟩, some item, risk)
      else (st2, ⟨1, 0⟩, none, risk)

/-- SessionManager.step, session_manager.py lines 217-782, as a pure
function of the step environment, the estimator maximum mx and the loaded
state.  Returns the final in-memory state (equal to the last persisted
snapshot on every path that saves), the stats, the returned item and the
risk assessment. -/
def step (env : StepEnv) (mx : ℚ) (st : V3State) (auto_scroll : Bool) :
    V3State × SessionStats × Option VideoItem × RiskAssessment :=
  let st := { st with device_status := some env.status, device_status_ts := env.now }
  if optStrTruthy st.active_session_id ∧ env.status ≠ .READY then
    ({ st with
        active_session_id := none
        last_session_stop_reason := some ("device_" ++ env.status.name) },
     ⟨0, 0⟩, none, ⟨.SAFE, "device_status", 0⟩)
  else
    let created := ¬ optStrTruthy st.active_session_id
    let st :=
      if created then
        { st with active_session_id := some env.newSessionId, last_session_stop_reason := none }
      else st
    let sid := st.active_session_id.getD ""
    let m0 :=
      match alGet st.session_metrics sid with
      | some m => m
      | none => { session_id := sid, started_ts := env.now, last_event_ts := env.now }
    let st :=
      if auto_scroll ∧ env.androidPresent ∧ env.inputEnabled then
        { st with
            last_instagram_launch_ts := env.preflightLaunchTs
            last_reels_nav_ts := env.preflightReelsTs }
      else st
    if auto_scroll ∧ recoveryGuard env then
      let m1 := applyEvents m0 [{ kind := .scroll, ts := env.scrollTs, contentKey := env.contentKey }]
      ({ st with session_metrics := alPut st.session_metrics sid m1 },
       ⟨1, 0⟩, none, ⟨.SAFE, "recovered_post_swipe", 0⟩)
    else if auto_scroll ∧ adGuard env then
      let m1 := applyEvents m0 [{ kind := .scroll, ts := env.scrollTs, contentKey := env.contentKey }]
      ({ st with session_metrics := alPut st.session_metrics sid m1 },
       ⟨1, 0⟩, none, ⟨.SAFE, "ad_skip", 0⟩)
    else
      let ev := if auto_scroll then stepEvents env st.settings else ([], false)
      let m1 := applyEvents m0 ev.1
      let st := { st with session_metrics := alPut st.session_metrics sid m1 }
      stepCommit env mx st sid m1 ev.1

/-! ## Concrete step scenarios

Inputs used by the concrete step evaluations: a ready device, an active
session "s1" begun 1000 seconds before the current step (beyond the 900
second estimator maximum, which is the constructor default
riskInitMax 900), empty settings (so risk_safety_enabled defaults to
true), and an already-known item identity (the stable shortcode of the
step resolves to the stored key vid_shortA). -/

def c2Env : StepEnv := {
  status := .READY
  now := 1000
  newSessionId := "sNEW"
  newVideoId := "idA"
  stableShortcode := fun _ => "shortA"
  androidPresent := false
  inputEnabled := false
  didSwipe := false
  fgMismatchPostSwipe := false
  adProbeAvailable := false
  adDetected := false
  scrollTs := 0
  pauseTs := 0
  openTs := 0
  watchTs := 0
  contentKey := ""
  rPause := 0
  rWatch := 0
  shouldOpen := false
  captureAvailable := false
  captureResult := ""
  preflightLaunchTs := 0
  preflightReelsTs := 0 }

def c2Item : VideoItem := {
  internal_id := "vid_shortA"
  source := "instagram"
  source_url := ""
  score := 0
  status := .approved
  timestamp := 0
  session_id := "s1" }

def c2State : V3State := {
  active_session_id := some "s1"
  videos := [("vid_shortA", c2Item)]
  session_metrics := [("s1", { session_id := "s1", started_ts := 0, last_event_ts := 0 })] }

/-- Settings used by the concrete promotion scenario: fixed three-second
scroll and watch pauses (integer values keep the scenario kernel
computable), everything else at defaults. -/
def settings3 : Settings := fun k =>
  if k = "scroll_pause_min_seconds" then some (.num 3)
  else if k = "scroll_pause_max_seconds" then some (.num 3)
  else if k = "open_watch_min_seconds" then some (.num 3)
  else if k = "open_watch_max_seconds" then some (.num 3)
  else none

/-- Environment of the concrete promotion scenario: ready device, capture
available, an open drawn, and a captured reel link whose shortcode matches
the stored item. -/
def c3Env : StepEnv := {
  status := .READY
  now := 50
  newSessionId := "sNEW"
  newVideoId := "idB"
  stableShortcode := fun _ => "zzzzz"
  androidPresent := true
  inputEnabled := false
  didSwipe := false
  fgMismatchPostSwipe := false
  adProbeAvailable := false
  adDetected := false
  scrollTs := 0
  pauseTs := 0
  openTs := 0
  watchTs := 0
  contentKey := "ck"
  rPause := 1
  rWatch := 0
  shouldOpen := true
  captureAvailable := true
  captureResult := "https://x/reel/ABCDEF/q"
  preflightLaunchTs := 0
  preflightReelsTs := 0 }

def c3Item : VideoItem := {
  internal_id := "vid_ABCDEF"
  source := "instagram"
  source_url := ""
  score := 0
  status := .deleted
  timestamp := 0
  session_id := "s1" }

def c3State : V3State := {
  active_session_id := some "s1"
  settings := settings3
  videos := [("vid_ABCDEF", c3Item)]
  session_metrics := [("s1", { session_id := "s1", started_ts := 0, last_event_ts := 0 })] }

/-- The event list the promotion scenario produces (a scroll, the fixed
three-second pause, an open, and its fixed three-second watch pause). -/
def evList3 : List Event :=
  [{ kind := .scroll, ts := 0, contentKey := "ck" },
   { kind := .pause, ts := 0, seconds := 3 },
   { kind := .openEv, ts := 0, contentKey := "ck" },
   { kind := .pause, ts := 0, seconds := 3 }]

/-! ## Spec-side rule table for the risk estimator

Transcribed from the wording of the specification (§4.2), for comparison
with the riskAssess embedding of the source: eleven ordered rules, first
match winning, with the warm-up condition written as the spec states it
(elapsed at least 60 seconds for the rate-based rules 3, 8 and 9). -/

def riskSpecLevel (mx : ℚ) (m : SessionMetrics) (now_ts : ℚ) : RiskLevel :=
  if mx ≤ m.elapsed_seconds now_ts then .HIGH_RISK
  else if 90/100 ≤ m.fatigue_score now_ts then .HIGH_RISK
  else if 60 ≤ m.elapsed_seconds now_ts ∧ 90 ≤ m.scroll_rate_per_min now_ts then .HIGH_RISK
  else if 300 ≤ m.elapsed_seconds now_ts ∧ 75 ≤ m.scroll_rate_per_min now_ts
      ∧ riskPauseRpm m now_ts ≤ 1/2 then .HIGH_RISK
  else if 300 ≤ m.elapsed_seconds now_ts ∧ 20 ≤ riskOpenRpm m now_ts
      ∧ riskPauseRpm m now_ts ≤ 8/10 then .HIGH_RISK
  else if max 0 (mx - m.elapsed_seconds now_ts) ≤ 180 then .WARNING
  else if 70/100 ≤ m.fatigue_score now_ts then .WARNING
  else if 60 ≤ m.elapsed_seconds now_ts ∧ 60 ≤ m.scroll_rate_per_min now_ts then .WARNING
  else if 60 ≤ m.elapsed_seconds now_ts ∧ 12 ≤ riskOpenRpm m now_ts then .WARNING
  else if 480 ≤ m.elapsed_seconds now_ts ∧ riskPauseRpm m now_ts ≤ 8/10 then .WARNING
  else .SAFE

/-! # Theorems

General lemmas first, then one theorem per claim (with its witness or
counterexample where required). -/

theorem clamp01_nonneg (x : ℚ) : 0 ≤ clamp01 x := le_max_left _ _

theorem clamp01_le_one (x : ℚ) : clamp01 x ≤ 1 := by
  by_cases h : (1 : ℚ) ≤ min 1 x
  · simp [clamp01]
  · simp only [clamp01, max_le_iff]
    constructor
    · norm_num
    · exact min_le_left _ _

theorem alGet_alPut_self {α : Type} (l : List (String × α)) (k : String) (v : α) :
    alGet (alPut l k v) k = some v := by
  induction l with
  | nil => simp [alGet, alPut]
  | cons hd tl ih =>
      obtain ⟨k0, w⟩ := hd
      by_cases h : k0 = k
      · simp [alPut, alGet, h]
      · simp [alPut, alGet, h, ih]

theorem alGet_alPut_ne {α : Type} (l : List (String × α)) (k k' : String) (v : α)
    (h : k ≠ k') : alGet (alPut l k v) k' = alGet l k' := by
  induction l with
  | nil => simp [alGet, alPut, h]
  | cons hd tl ih =>
      obtain ⟨k0, w⟩ := hd
      by_cases h0 : k0 = k
      · subst h0
        simp [alPut, alGet, h]
      · simp [alPut, alGet, h0, ih]

theorem clamp01_idem (x : ℚ) : clamp01 (clamp01 x) = clamp01 x := by
  have h0 : clamp01 (clamp01 x) = max 0 (min 1 (clamp01 x)) := rfl
  rw [h0, min_eq_right (clamp01_le_one x), max_eq_right (clamp01_nonneg x)]

theorem fatigue_score_bounds (m : SessionMetrics) (now_ts : ℚ) :
    0 ≤ m.fatigue_score now_ts ∧ m.fatigue_score now_ts ≤ 1 := by
  unfold SessionMetrics.fatigue_score
  refine ⟨le_max_left _ _, ?_⟩
  exact max_le (by norm_num) (min_le_left _ _)

theorem apply_event_counters (m : SessionMetrics) (ev : Event)
    (hp : ev.kind = .pause → 0 ≤ ev.seconds) :
    m.scroll_count ≤ (m.apply_event ev).scroll_count ∧
    m.open_count ≤ (m.apply_event ev).open_count ∧
    m.pause_seconds ≤ (m.apply_event ev).pause_seconds := by
  cases hk : ev.kind <;> simp only [SessionMetrics.apply_event, hk]
  · exact ⟨by omega, by omega, le_refl _⟩
  · exact ⟨le_refl _, le_refl _, by linarith [hp hk]⟩
  · exact ⟨by omega, by omega, le_refl _⟩

/-- C5: for every sequence of events whose pause durations are
non-negative, applying them through apply_event leaves the scroll count,
open count and accumulated pause seconds non-decreasing, and the fatigue
score of the resulting metrics lies in [0,1] at every instant. -/
theorem metrics_monotone_and_fatigue_bounded (m : SessionMetrics)
    (evs : List Event) (now_ts : ℚ)
    (hnn : ∀ e ∈ evs, e.kind = .pause → 0 ≤ e.seconds) :
    m.scroll_count ≤ (applyEvents m evs).scroll_count ∧
    m.open_count ≤ (applyEvents m evs).open_count ∧
    m.pause_seconds ≤ (applyEvents m evs).pause_seconds ∧
    0 ≤ (applyEvents m evs).fatigue_score now_ts ∧
    (applyEvents m evs).fatigue_score now_ts ≤ 1 := by
  have hmono : ∀ (m0 : SessionMetrics),
      m0.scroll_count ≤ (applyEvents m0 evs).scroll_count ∧
      m0.open_count ≤ (applyEvents m0 evs).open_count ∧
      m0.pause_seconds ≤ (applyEvents m0 evs).pause_seconds := by
    induction evs with
    | nil => intro m0; exact ⟨le_refl _, le_refl _, le_refl _⟩
    | cons e tl ih =>
        intro m0
        have he : e.kind = .pause → 0 ≤ e.seconds := hnn e (by simp)
        have h1 := apply_event_counters m0 e he
        have h2 := ih (fun x hx hk => hnn x (by simp [hx]) hk) (m0.apply_event e)
        have hfold : applyEvents m0 (e :: tl) = applyEvents (m0.apply_event e) tl := rfl
        rw [hfold]
        exact ⟨le_trans h1.1 h2.1, le_trans h1.2.1 h2.2.1, le_trans h1.2.2 h2.2.2⟩
  have hb := fatigue_score_bounds (applyEvents m evs) now_ts
  exact ⟨(hmono m).1, (hmono m).2.1, (hmono m).2.2, hb.1, hb.2⟩

theorem metrics_monotone_and_fatigue_bounded_witness :
    (∀ e ∈ [({ kind := .scroll, ts := 1 } : Event),
            { kind := .pause, ts := 2, seconds := 2 },
            { kind := .openEv, ts := 3 }], e.kind = .pause → 0 ≤ e.seconds) ∧
    ((⟨"s", 0, 0, 0, 0, 0⟩ : SessionMetrics).scroll_count ≤
      (applyEvents ⟨"s", 0, 0, 0, 0, 0⟩
        [{ kind := .scroll, ts := 1 }, { kind := .pause, ts := 2, seconds := 2 },
         { kind := .openEv, ts := 3 }]).scroll_count ∧
     (⟨"s", 0, 0, 0, 0, 0⟩ : SessionMetrics).open_count ≤
      (applyEvents ⟨"s", 0, 0, 0, 0, 0⟩
        [{ kind := .scroll, ts := 1 }, { kind := .pause, ts := 2, seconds := 2 },
         { kind := .openEv, ts := 3 }]).open_count ∧
     (⟨"s", 0, 0, 0, 0, 0⟩ : SessionMetrics).pause_seconds ≤
      (applyEvents ⟨"s", 0, 0, 0, 0, 0⟩
        [{ kind := .scroll, ts := 1 }, { kind := .pause, ts := 2, seconds := 2 },
         { kind := .openEv, ts := 3 }]).pause_seconds ∧
     0 ≤ (applyEvents ⟨"s", 0, 0, 0, 0, 0⟩
        [{ kind := .scroll, ts := 1 }, { kind := .pause, ts := 2, seconds := 2 },
         { kind := .openEv, ts := 3 }]).fatigue_score 10 ∧
     (applyEvents ⟨"s", 0, 0, 0, 0, 0⟩
        [{ kind := .scroll, ts := 1 }, { kind := .pause, ts := 2, seconds := 2 },
         { kind := .openEv, ts := 3 }]).fatigue_score 10 ≤ 1) :=
  ⟨by decide, metrics_monotone_and_fatigue_bounded _ _ _ (by decide)⟩

/-- C6 counterexample: apply_event does not coerce a negative pause
duration, so a pause event carrying -1 seconds strictly decreases
pause_seconds, refuting the claim that no counter ever decreases. -/
theorem apply_event_negative_pause_decreases :
    (SessionMetrics.apply_event ⟨"s", 0, 0, 0, 0, 0⟩
        { kind := .pause, ts := 1, seconds := -1 }).pause_seconds
      < (⟨"s", 0, 0, 0, 0, 0⟩ : SessionMetrics).pause_seconds := by
  simp only [SessionMetrics.apply_event]
  norm_num

/-- C6 amended: apply_event never decreases the scroll or open counters
and has no failure case, and pause_seconds never decreases for events
whose seconds are non-negative (the repository only feeds such events,
because SimulatedMobileAgent.pause clamps at zero); but apply_event itself
adds pause seconds unchecked, so the non-negativity is a property of the
event producer, not of the metrics operation. -/
theorem apply_event_monotone_nonneg (m : SessionMetrics) (ev : Event) :
    m.scroll_count ≤ (m.apply_event ev).scroll_count ∧
    m.open_count ≤ (m.apply_event ev).open_count ∧
    (0 ≤ ev.seconds → m.pause_seconds ≤ (m.apply_event ev).pause_seconds) ∧
    (ev.kind ≠ .pause → (m.apply_event ev).pause_seconds = m.pause_seconds) := by
  cases hk : ev.kind <;> simp only [SessionMetrics.apply_event, hk]
  · exact ⟨by omega, by omega, fun _ => le_refl _, fun _ => trivial⟩
  · refine ⟨le_refl _, le_refl _, fun h => by linarith, fun h => absurd rfl h⟩
  · exact ⟨by omega, by omega, fun _ => le_refl _, fun _ => trivial⟩

theorem apply_event_monotone_nonneg_witness :
    (0 : ℚ) ≤ (2 : ℚ) ∧
    (⟨"s", 0, 0, 0, 0, 0⟩ : SessionMetrics).pause_seconds ≤
      (SessionMetrics.apply_event ⟨"s", 0, 0, 0, 0, 0⟩
        { kind := .pause, ts := 2, seconds := 2 }).pause_seconds :=
  ⟨by decide,
   (apply_event_monotone_nonneg ⟨"s", 0, 0, 0, 0, 0⟩
      { kind := .pause, ts := 2, seconds := 2 }).2.2.1 (by decide)⟩

/-- C10: load_state is total and returns a fresh default V3State for every
abnormal file outcome: a missing file, an unreadable file, non-JSON text,
a JSON document that is not an object, and (via the surrounding try) a
raising dict_to_state; a corrupt state file therefore silently resets the
persisted aggregate to empty defaults. -/
theorem load_state_abnormal_defaults (dts : List (String × JsonVal) → Option V3State)
    (r : ReadResult)
    (h : r = .missing ∨ r = .unreadable ∨ r = .notJson ∨ r = .jsonDoc .other) :
    load_state dts r = defaultV3State := by
  rcases h with h | h | h | h <;> subst h <;> rfl

theorem load_state_abnormal_defaults_witness :
    load_state (fun _ => none) .notJson = defaultV3State :=
  load_state_abnormal_defaults (fun _ => none) .notJson (Or.inr (Or.inr (Or.inl rfl)))

theorem selGetF_noSettings (key : String) (dflt : ℚ) :
    selGetF noSettings key dflt = dflt := rfl

theorem clamp01_of {q : ℚ} (h0 : 0 ≤ q) (h1 : q ≤ 1) : clamp01 q = q := by
  unfold clamp01
  rw [min_eq_right h1, max_eq_right h0]

theorem selector_default_score (r b v : ℚ) :
    (selectorDecide r b v noSettings).score
      = clamp01 ((35/100) * (1 - b) + (35/100) * v + (30/100) * (1 - |r - 45/100|)) := by
  simp only [selectorDecide, selGetF_noSettings, selScore,
    clamp01_of (by norm_num : (0:ℚ) ≤ 35/100) (by norm_num : (35:ℚ)/100 ≤ 1),
    clamp01_of (by norm_num : (0:ℚ) ≤ 30/100) (by norm_num : (30:ℚ)/100 ≤ 1),
    clamp01_of (by norm_num : (0:ℚ) ≤ 45/100) (by norm_num : (45:ℚ)/100 ≤ 1)]
  rw [clamp01_idem]

theorem selector_default_threshold (r b v : ℚ) :
    (selectorDecide r b v noSettings).threshold = 65/100 := by
  simp only [selectorDecide, selGetF_noSettings,
    clamp01_of (by norm_num : (0:ℚ) ≤ 65/100) (by norm_num : (65:ℚ)/100 ≤ 1)]

theorem selector_default_keep_iff (r b v : ℚ) :
    (selectorDecide r b v noSettings).should_keep = true ↔
      (65/100 : ℚ) ≤ (selectorDecide r b v noSettings).score := by
  simp only [selectorDecide, selGetF_noSettings, decide_eq_true_eq,
    clamp01_of (by norm_num : (0:ℚ) ≤ 65/100) (by norm_num : (65:ℚ)/100 ≤ 1)]

theorem abs_nine_tenths_sub : |(9:ℚ)/10 - 45/100| = 9/20 := by
  rw [show (9:ℚ)/10 - 45/100 = 9/20 by norm_num]
  exact abs_of_nonneg (by norm_num)

/-- C4: with no settings (all defaults), Selector.decide scores
clamp01(0.35 (1-banality) + 0.35 viral + 0.30 (1-|rhythm-0.45|)) against
threshold 0.65, keep holding exactly when the score reaches the threshold;
and the two reference inputs decide keep and discard respectively. -/
theorem selector_decide_default_formula :
    (∀ r b v : ℚ,
      (selectorDecide r b v noSettings).score
          = clamp01 ((35/100) * (1 - b) + (35/100) * v + (30/100) * (1 - |r - 45/100|)) ∧
      (selectorDecide r b v noSettings).threshold = 65/100 ∧
      ((selectorDecide r b v noSettings).should_keep = true ↔
        (65/100 : ℚ) ≤ (selectorDecide r b v noSettings).score)) ∧
    (selectorDecide (9/10) 0 (9/10) noSettings).should_keep = true ∧
    (selectorDecide (1/10) 1 0 noSettings).should_keep = false := by
  refine ⟨fun r b v => ⟨selector_default_score r b v, selector_default_threshold r b v,
    selector_default_keep_iff r b v⟩, ?_, ?_⟩
  · rw [selector_default_keep_iff, selector_default_score, abs_nine_tenths_sub,
      clamp01_of (by norm_num) (by norm_num)]
    norm_num
  · have h2 := selector_default_keep_iff (1/10) 1 0
    rw [selector_default_score] at h2
    have habs : |(1:ℚ)/10 - 45/100| = 7/20 := by
      rw [show (1:ℚ)/10 - 45/100 = -(7/20) by norm_num, abs_neg]
      exact abs_of_nonneg (by norm_num)
    rw [habs, clamp01_of (by norm_num) (by norm_num)] at h2
    have hnot : ¬ ((65:ℚ)/100 ≤ 35/100 * (1 - 1) + 35/100 * 0 + 30/100 * (1 - 7/20)) := by
      norm_num
    cases hsk : (selectorDecide (1/10) 1 0 noSettings).should_keep
    · rfl
    · exact absurd (h2.mp hsk) hnot

set_option maxHeartbeats 2000000 in
/-- C1: RiskEstimator.assess implements exactly the ordered first-match
rule table of the specification (riskSpecLevel), always populates
remaining_seconds as max(0, maxSessionSeconds - elapsed) (in particular 0
when elapsed reaches the maximum), and returns exactly one of the three
levels; determinism holds because the embedding is a pure function of
(metrics, now, max). -/
theorem riskAssess_matches_spec (mx : ℚ) (m : SessionMetrics) (now_ts : ℚ) :
    (riskAssess mx m now_ts).level = riskSpecLevel mx m now_ts ∧
    (riskAssess mx m now_ts).remaining_seconds
        = max 0 (mx - m.elapsed_seconds now_ts) ∧
    ((riskAssess mx m now_ts).level = .SAFE ∨
      (riskAssess mx m now_ts).level = .WARNING ∨
      (riskAssess mx m now_ts).level = .HIGH_RISK) := by
  have e1 : ∀ P : Prop,
      (60 ≤ m.elapsed_seconds now_ts ∧ 300 ≤ m.elapsed_seconds now_ts ∧ P)
        ↔ (300 ≤ m.elapsed_seconds now_ts ∧ P) :=
    fun P => ⟨fun h => ⟨h.2.1, h.2.2⟩, fun h => ⟨by linarith [h.1], h.1, h.2⟩⟩
  have e3 : ∀ P : Prop,
      (60 ≤ m.elapsed_seconds now_ts ∧ 480 ≤ m.elapsed_seconds now_ts ∧ P)
        ↔ (480 ≤ m.elapsed_seconds now_ts ∧ P) :=
    fun P => ⟨fun h => ⟨h.2.1, h.2.2⟩, fun h => ⟨by linarith [h.1], h.1, h.2⟩⟩
  refine ⟨?_, ?_, ?_⟩
  · simp only [riskAssess, riskSpecLevel, riskElapsed, riskRemaining, ge_iff_le, not_lt,
      show (5 * 60 : ℚ) = 300 from by norm_num,
      show (8 * 60 : ℚ) = 480 from by norm_num, e1, e3,
      apply_ite RiskAssessment.level]
  · simp only [riskAssess, riskElapsed, riskRemaining, ge_iff_le, not_lt,
      apply_ite RiskAssessment.remaining_seconds]
    split_ifs <;> first | rfl | exact (max_eq_left (by linarith)).symm
  · cases h : (riskAssess mx m now_ts).level <;> simp [h]

/-- C7: parse_relative_pub_time yields no publish time and no age whenever
neither the AGE_SECONDS override nor any explicit numeric+unit pattern
matches the text; the reference phrase "il y a 45 min" parses to age 45
minutes with t_pub 45 minutes before the capture time; and whenever the
age is unknown the analysis leaves the STV unknown and classifies the item
as the normal category. -/
theorem no_fabricated_age_or_virality :
    (∀ (raw : String) (cap : ℚ),
       patSearch ageSecondsPats raw = none →
       relTimeSearch raw = none →
       (parse_relative_pub_time raw cap).1 = none ∧
       (parse_relative_pub_time raw cap).2.1 = none) ∧
    (∀ cap : ℚ,
       parse_relative_pub_time "il y a 45 min" cap
         = (some (cap - 2700), some 45, "matched:minutes")) ∧
    (∀ (thr : ℚ × ℚ × ℚ) (ocrText : String) (cap : ℚ)
       (likes shares sends saves remixes comments views : Option ℤ),
       (analyzeCore thr ocrText cap likes shares sends saves remixes comments views).age_minutes
           = none →
       (analyzeCore thr ocrText cap likes shares sends saves remixes comments views).stv
           = none ∧
       (analyzeCore thr ocrText cap likes shares sends saves remixes comments views).category
           = "🟡 Normale") := by
  refine ⟨?_, ?_, ?_⟩
  · intro raw cap h1 h2
    by_cases hr : raw = ""
    · simp [parse_relative_pub_time, hr]
    · simp [parse_relative_pub_time, hr, h1, h2]
  · intro cap
    have h1 : patSearch ageSecondsPats "il y a 45 min" = none := by decide
    have h2 : relTimeSearch "il y a 45 min" = some (.minutes, 45) := by decide
    simp [parse_relative_pub_time, h1, h2, ageDeltaSeconds, ageMinutesOf, ageUnitName]
  · intro thr ocrText cap likes shares sends saves remixes comments views h
    have hage : (parse_relative_pub_time ocrText cap).2.1 = none := h
    constructor
    · show (analyzeCore thr ocrText cap likes shares sends saves remixes comments views).stv
          = none
      simp only [analyzeCore, hage]
    · show (analyzeCore thr ocrText cap likes shares sends saves remixes comments views).category
          = "🟡 Normale"
      simp only [analyzeCore, hage, classify]

theorem no_fabricated_age_or_virality_witness :
    patSearch ageSecondsPats "nice video" = none ∧
    relTimeSearch "nice video" = none ∧
    ((parse_relative_pub_time "nice video" 10000).1 = none ∧
     (parse_relative_pub_time "nice video" 10000).2.1 = none) ∧
    ((analyzeCore (3, 6/5, 1/4) "nice video" 10000 (some 50) (some 7) none none none
        (some 3) none).stv = none ∧
     (analyzeCore (3, 6/5, 1/4) "nice video" 10000 (some 50) (some 7) none none none
        (some 3) none).category = "🟡 Normale") :=
  ⟨by decide, by decide,
   no_fabricated_age_or_virality.1 "nice video" 10000 (by decide) (by decide),
   no_fabricated_age_or_virality.2.2 (3, 6/5, 1/4) "nice video" 10000 (some 50) (some 7)
     none none none (some 3) none (by decide)⟩

/-- C8: for positive age, compute_stv returns each velocity as the counter
divided by the age in minutes and blends the legacy STV 50/50 with the
enriched formula exactly when at least one of sends, saves, remixes is
present (sends substituting shares in the enriched share term when
available, absent save and remix terms contributing nothing); for
non-positive age the computation fails (no zero velocity is invented). -/
theorem compute_stv_formula (likes shares comments : ℤ) (age : ℚ)
    (sends saves remixes : Option ℤ) :
    (0 < age →
      compute_stv likes shares comments age sends saves remixes
        = some ((likes : ℚ) / age, (shares : ℚ) / age, (comments : ℚ) / age,
            (if sends = none ∧ saves = none ∧ remixes = none then
               (45/100) * ((likes : ℚ) / age) + (40/100) * ((shares : ℚ) / age)
                 + (15/100) * ((comments : ℚ) / age)
             else
               (1/2) * ((45/100) * ((likes : ℚ) / age) + (40/100) * ((shares : ℚ) / age)
                 + (15/100) * ((comments : ℚ) / age))
               + (1/2) * ((30/100) * ((likes : ℚ) / age) + (10/100) * ((comments : ℚ) / age)
                 + (match sends with
                    | some sv => (30/100) * ((sv : ℚ) / age)
                    | none => (30/100) * ((shares : ℚ) / age))
                 + (match saves with
                    | some sv => (20/100) * ((sv : ℚ) / age)
                    | none => 0)
                 + (match remixes with
                    | some rv => (10/100) * ((rv : ℚ) / age)
                    | none => 0))),
            sends.map (fun n => (n : ℚ) / age), saves.map (fun n => (n : ℚ) / age),
            remixes.map (fun n => (n : ℚ) / age))) ∧
    (age ≤ 0 → compute_stv likes shares comments age sends saves remixes = none) := by
  constructor
  · intro h
    have hne : ¬ (age ≤ 0) := not_le.mpr h
    rcases sends with _ | sv <;> rcases saves with _ | av <;> rcases remixes with _ | rv <;>
      simp [compute_stv, hne] <;> ring
  · intro h
    simp [compute_stv, h]

theorem compute_stv_formula_witness :
    (0 : ℚ) < 5 ∧
    compute_stv 100 50 10 5 (some 20) none none
      = some ((100 : ℚ) / 5, (50 : ℚ) / 5, (10 : ℚ) / 5,
          (1/2) * ((45/100) * ((100 : ℚ) / 5) + (40/100) * ((50 : ℚ) / 5)
              + (15/100) * ((10 : ℚ) / 5))
            + (1/2) * ((30/100) * ((100 : ℚ) / 5) + (10/100) * ((10 : ℚ) / 5)
              + (30/100) * (((20 : ℤ) : ℚ) / 5) + 0 + 0),
          (some 20 : Option ℤ).map (fun n => (n : ℚ) / 5), none, none) := by
  refine ⟨by decide, ?_⟩
  have h := (compute_stv_formula 100 50 10 5 (some 20) none none).1 (by decide)
  simpa using h

/-- C9 counterexample: on the right-column text of the claim the code maps
the four extracted counts positionally as likes, comments, remixes, sends
(in that order, per the mapping of temporal_analysis.py lines 233-242), so
it yields sends=5 (not 12), saves unknown (not 5) and remixes=12 (not
unknown), refuting the claimed assignment. -/
theorem extract_counters_right_column_refutes_claim :
    extractMetricsRightColumn "[OCR_RIGHT_COLUMN]\n❤️ 1.2K\n💬 340\n✈️ 12\n🔖 5"
      = some ⟨some 1200, some 5, some 5, none, some 12, some 340, none⟩ ∧
    (⟨some 1200, some 5, some 5, none, some 12, some 340, none⟩ : Counters).sends
        ≠ some 12 ∧
    (⟨some 1200, some 5, some 5, none, some 12, some 340, none⟩ : Counters).saves
        ≠ some 5 ∧
    (⟨some 1200, some 5, some 5, none, some 12, some 340, none⟩ : Counters).remixes
        ≠ none := by
  refine ⟨by decide, by decide, by decide, by decide⟩

/-- C9 amended: the right-column extraction on that text yields likes=1200,
comments=340, remixes=12, sends=5 (shares aliasing sends), saves unknown
and views unknown. -/
theorem extract_counters_right_column_actual :
    extractMetricsRightColumn "[OCR_RIGHT_COLUMN]\n❤️ 1.2K\n💬 340\n✈️ 12\n🔖 5"
      = some { likes := some 1200, comments := some 340, remixes := some 12,
               sends := some 5, shares := some 5, saves := none, views := none } := by
  decide

theorem stepCommit_risk (env : StepEnv) (mx : ℚ) (st : V3State) (sid : String)
    (m : SessionMetrics) (events : List Event) :
    (stepCommit env mx st sid m events).2.2.2 = riskAssess mx m env.now := by
  simp only [stepCommit]
  split <;> split_ifs <;> rfl

theorem stepCommit_active_existing (env : StepEnv) (mx : ℚ) (st : V3State)
    (sid : String) (m : SessionMetrics) (events : List Event) (vid : String)
    (v : VideoItem)
    (hvid : stepVid env (stepSourceUrl env (stepDecision st.settings events).should_keep)
        events = vid)
    (h : alGet st.videos vid = some v) :
    (stepCommit env mx st sid m events).1.active_session_id = st.active_session_id := by
  subst hvid
  simp only [stepCommit, h]
  split_ifs <;> rfl

theorem step_noauto (env : StepEnv) (mx : ℚ) (st : V3State)
    (h1 : env.status = .READY) (h2 : optStrTruthy st.active_session_id = true) :
    step env mx st false
      = stepCommit env mx
          { st with
              device_status := some env.status
              device_status_ts := env.now
              session_metrics := alPut st.session_metrics (st.active_session_id.getD "")
                (stepMetrics st (st.active_session_id.getD "") env.now) }
          (st.active_session_id.getD "") (stepMetrics st (st.active_session_id.getD "") env.now)
          [] := by
  simp only [step, h1, h2, stepMetrics]
  norm_num [applyEvents]

/-- C2 (code_bug evidence): a step that re-observes an already-known item
identity while the assessed risk is HIGH_RISK and risk_safety_enabled is
at its default true does not clear active_session_id: the auto-stop of
session_manager.py lines 767-776 exists only on the new-item path, and the
re-observation path (lines 671-721) returns after persisting without it. -/
theorem step_highRisk_reobservation_keeps_session :
    (step c2Env 900 c2State false).2.2.2.level = .HIGH_RISK ∧
    mgrGetB c2State.settings "risk_safety_enabled" true = true ∧
    (step c2Env 900 c2State false).1.active_session_id = some "s1" := by
  have h2 : optStrTruthy c2State.active_session_id = true := by decide
  have hs := step_noauto c2Env 900 c2State rfl h2
  rw [hs]
  have hm : stepMetrics c2State (c2State.active_session_id.getD "") c2Env.now
      = ⟨"s1", 0, 0, 0, 0, 0⟩ := by decide
  refine ⟨?_, rfl, ?_⟩
  · rw [stepCommit_risk, hm]
    show (riskAssess 900 ⟨"s1", 0, 0, 0, 0, 0⟩ c2Env.now).level = .HIGH_RISK
    have hnow : c2Env.now = (1000 : ℚ) := rfl
    rw [hnow]
    unfold riskAssess
    rw [if_pos]
    · show riskElapsed ⟨"s1", 0, 0, 0, 0, 0⟩ 1000 ≥ 900
      unfold riskElapsed SessionMetrics.elapsed_seconds
      rw [ge_iff_le]
      exact le_max_of_le_right (by norm_num)
  · have hkeep : (stepDecision c2State.settings []).should_keep = false := by
      have hfeat : compute_selection_features [] = (9/10, 11/20, 11/20) := by
        norm_num [compute_selection_features, clamp01, min_def, max_def]
      have hiff := selector_default_keep_iff (9/10) (11/20) (11/20)
      rw [selector_default_score, abs_nine_tenths_sub,
        clamp01_of (by norm_num) (by norm_num)] at hiff
      have hd : stepDecision c2State.settings []
          = selectorDecide (9/10) (11/20) (11/20) noSettings := by
        show stepDecision noSettings [] = _
        rw [stepDecision, hfeat]
      rw [hd]
      cases hsk : (selectorDecide (9/10) (11/20) (11/20) noSettings).should_keep
      · rfl
      · exact absurd (hiff.mp hsk) (by norm_num)
    refine (stepCommit_active_existing _ _ _ _ _ _ "vid_shortA" c2Item ?_ ?_).trans rfl
    · have hkeep2 : (stepDecision
          ({ c2State with
              device_status := some c2Env.status
              device_status_ts := c2Env.now
              session_metrics := alPut c2State.session_metrics
                (c2State.active_session_id.getD "")
                (stepMetrics c2State (c2State.active_session_id.getD "") c2Env.now) } :
            V3State).settings []).should_keep = false := hkeep
      rw [hkeep2]
      decide
    · decide

theorem stepUpdatedItem_status (env : StepEnv) (s : Settings) (sid : String)
    (events : List Event) (ex : VideoItem) :
    (stepUpdatedItem env s sid events ex).status
      = if stepPromoted env s events ex then .pending else ex.status := by
  simp only [stepUpdatedItem]
  split_ifs <;> rfl

theorem stepNewItem_status (env : StepEnv) (s : Settings) (sid : String)
    (events : List Event) :
    (stepNewItem env s sid events).status
      = if stepKeepOk env s events then .pending else .deleted := rfl

theorem stepNewItem_source_url (env : StepEnv) (s : Settings) (sid : String)
    (events : List Event) :
    (stepNewItem env s sid events).source_url
      = stepSourceUrl env (stepDecision s events).should_keep := rfl

theorem stepKeepOk_source_ne (env : StepEnv) (s : Settings) (events : List Event)
    (h : stepKeepOk env s events = true) :
    stepSourceUrl env (stepDecision s events).should_keep ≠ "" := by
  simp only [stepKeepOk, Bool.decide_and, Bool.and_eq_true, decide_eq_true_eq] at h
  exact h.2

set_option maxHeartbeats 1000000 in
theorem stepCommit_videos_eq (env : StepEnv) (mx : ℚ) (st : V3State) (sid : String)
    (m : SessionMetrics) (events : List Event) :
    (stepCommit env mx st sid m events).1.videos
      = alPut st.videos
          (stepVid env (stepSourceUrl env (stepDecision st.settings events).should_keep) events)
          (match alGet st.videos
              (stepVid env (stepSourceUrl env (stepDecision st.settings events).should_keep)
                events) with
           | none => stepNewItem env st.settings sid events
           | some ex => stepUpdatedItem env st.settings sid events ex) := by
  simp only [stepCommit]
  cases hvid : alGet st.videos
      (stepVid env (stepSourceUrl env (stepDecision st.settings events).should_keep) events) <;>
    simp only [hvid] <;> split_ifs <;> rfl

set_option maxHeartbeats 1000000 in
theorem step_videos_cases (env : StepEnv) (mx : ℚ) (st : V3State) (auto : Bool) :
    ((step env mx st auto).1.videos = st.videos) ∨
    (∃ (st2 : V3State) (sid : String) (m : SessionMetrics) (evs : List Event),
       st2.videos = st.videos ∧ st2.settings = st.settings ∧
       step env mx st auto = stepCommit env mx st2 sid m evs) := by
  simp only [step]
  split_ifs <;>
    first
      | exact Or.inl rfl
      | (refine Or.inr ⟨_, _, _, _, ?_, ?_, rfl⟩ <;> rfl)

theorem step_auto_noinput (env : StepEnv) (mx : ℚ) (st : V3State)
    (h1 : env.status = .READY) (h2 : optStrTruthy st.active_session_id = true)
    (h3 : env.inputEnabled = false) :
    step env mx st true
      = stepCommit env mx
          { st with
              device_status := some env.status
              device_status_ts := env.now
              session_metrics := alPut st.session_metrics (st.active_session_id.getD "")
                (applyEvents (stepMetrics st (st.active_session_id.getD "") env.now)
                  (stepEvents env st.settings).1) }
          (st.active_session_id.getD "")
          (applyEvents (stepMetrics st (st.active_session_id.getD "") env.now)
            (stepEvents env st.settings).1)
          (stepEvents env st.settings).1 := by
  simp only [step, h1, h2, h3, stepMetrics, recoveryGuard, adGuard]
  norm_num

theorem stepEvents_promo : stepEvents c3Env settings3 = (evList3, true) := by
  have l1 : settings3 "scroll_pause_seconds" = none := rfl
  have l2 : settings3 "scroll_pause_min_seconds" = some (.num 3) := rfl
  have l3 : settings3 "scroll_pause_max_seconds" = some (.num 3) := rfl
  have l4 : settings3 "open_watch_min_seconds" = some (.num 3) := rfl
  have l5 : settings3 "open_watch_max_seconds" = some (.num 3) := rfl
  simp only [stepEvents, random_scroll_pause_seconds, mgrGetF, l1, l2, l3, l4, l5]
  norm_num [min_def, max_def, evList3]
  rfl

theorem features_promo : compute_selection_features evList3 = (2/5, 11/20, 4/5) := by
  have hp : evList3.filter (fun e => e.kind = .pause)
      = [{ kind := .pause, ts := 0, seconds := 3 },
         { kind := .pause, ts := 0, seconds := 3 }] := by decide
  have ho : evList3.any (fun e => e.kind = .openEv) = true := by decide
  norm_num [compute_selection_features, hp, ho, clamp01, min_def, max_def]

theorem decision_promo :
    stepDecision settings3 evList3 = selectorDecide (2/5) (11/20) (4/5) noSettings := by
  rw [stepDecision, features_promo]
  rfl

theorem abs_two_fifths_sub : |(2:ℚ)/5 - 45/100| = 1/20 := by
  rw [show (2:ℚ)/5 - 45/100 = -(1/20) by norm_num, abs_neg]
  exact abs_of_nonneg (by norm_num)

theorem keep_promo : (stepDecision settings3 evList3).should_keep = true := by
  rw [decision_promo]
  rw [selector_default_keep_iff, selector_default_score, abs_two_fifths_sub,
    clamp01_of (by norm_num) (by norm_num)]
  norm_num

theorem keepOk_promo : stepKeepOk c3Env settings3 evList3 = true := by
  simp only [stepKeepOk, keep_promo, show stepSourceUrl c3Env true
    = "https://x/reel/ABCDEF/q" from by decide]
  decide

theorem promoted_promo : stepPromoted c3Env settings3 evList3 c3Item = true := by
  simp only [stepPromoted, keepOk_promo]
  decide

set_option maxHeartbeats 1000000 in
theorem promotion_instance :
    ∃ v', alGet (step c3Env 900 c3State true).1.videos "vid_ABCDEF" = some v' ∧
      v'.status = .pending := by
  have h := step_auto_noinput c3Env 900 c3State rfl (by decide) rfl
  rw [h, stepCommit_videos_eq]
  have hevs : stepEvents c3Env c3State.settings = (evList3, true) := stepEvents_promo
  rw [hevs]
  have hkeep : (stepDecision c3State.settings evList3).should_keep = true := keep_promo
  simp only [hkeep, show stepSourceUrl c3Env true = "https://x/reel/ABCDEF/q" from by decide,
    show stepVid c3Env "https://x/reel/ABCDEF/q" evList3 = "vid_ABCDEF" from by decide]
  have hlook : alGet c3State.videos "vid_ABCDEF" = some c3Item := by decide
  simp only [hlook]
  refine ⟨_, alGet_alPut_self _ _ _, ?_⟩
  rw [stepUpdatedItem_status]
  have hpr : stepPromoted c3Env c3State.settings evList3 c3Item = true := promoted_promo
  rw [hpr]
  rfl

/-- C3: the item lifecycle invariant of SessionManager.step.  A newly
created entry is stored pending only with a non-empty captured reference
(otherwise it is stored deleted); re-observation of a known identity never
changes an approved or rejected status and moves a deleted item only to
pending, if anywhere; and promotion deleted-to-pending actually occurs on
a re-observation that scores as keep with a captured reference. -/
theorem step_item_lifecycle (env : StepEnv) (mx : ℚ) (st : V3State) (auto : Bool)
    (id : String) :
    ((alGet st.videos id = none →
       ∀ v', alGet (step env mx st auto).1.videos id = some v' →
         (v'.status = .pending ∨ v'.status = .deleted) ∧
         (v'.status = .pending → v'.source_url ≠ "")) ∧
     (∀ v, alGet st.videos id = some v →
       ∃ v', alGet (step env mx st auto).1.videos id = some v' ∧
         ((v.status = .approved ∨ v.status = .rejected) → v'.status = v.status) ∧
         (v.status = .deleted → v'.status = .deleted ∨ v'.status = .pending))) ∧
    (∃ v', alGet (step c3Env 900 c3State true).1.videos "vid_ABCDEF" = some v' ∧
       alGet c3State.videos "vid_ABCDEF" = some c3Item ∧ c3Item.status = .deleted ∧
       v'.status = .pending) := by
  constructor
  · rcases step_videos_cases env mx st auto with hsame | ⟨st2, sid, m, evs, hv, hsets, heq⟩
    · constructor
      · intro hpre v' hpost
        rw [hsame, hpre] at hpost
        exact absurd hpost (by simp)
      · intro v hvv
        refine ⟨v, ?_, fun _ => rfl, fun hd => Or.inl hd⟩
        rw [hsame]
        exact hvv
    · rw [heq, stepCommit_videos_eq, hv]
      by_cases hid :
          stepVid env (stepSourceUrl env (stepDecision st2.settings evs).should_keep) evs = id
      · rw [hid]
        constructor
        · intro hpre v' hpost
          rw [hpre, alGet_alPut_self] at hpost
          obtain rfl : stepNewItem env st2.settings sid evs = v' := by
            exact Option.some.inj hpost
          rw [stepNewItem_status, stepNewItem_source_url]
          cases hko : stepKeepOk env st2.settings evs
          · exact ⟨Or.inr rfl, fun hc => by simp at hc⟩
          · exact ⟨Or.inl rfl, fun _ => stepKeepOk_source_ne env st2.settings evs hko⟩
        · intro v hvv
          rw [hvv]
          refine ⟨stepUpdatedItem env st2.settings sid evs v, alGet_alPut_self _ _ _, ?_, ?_⟩
          · intro har
            rw [stepUpdatedItem_status]
            have hpf : stepPromoted env st2.settings evs v = false := by
              rcases har with h | h <;> simp [stepPromoted, h]
            rw [hpf]
            rfl
          · intro hd
            rw [stepUpdatedItem_status]
            cases hp : stepPromoted env st2.settings evs v
            · exact Or.inl (by rw [if_neg (by simp [hp])]; exact hd)
            · exact Or.inr (by rw [if_pos (by simp [hp])])
      · rw [alGet_alPut_ne _ _ _ _ hid]
        constructor
        · intro hpre v' hpost
          rw [hpre] at hpost
          exact absurd hpost (by simp)
        · intro v hvv
          exact ⟨v, hvv, fun _ => rfl, fun hd => Or.inl hd⟩
  · obtain ⟨v', h1, h2⟩ := promotion_instance
    exact ⟨v', h1, by decide, rfl, h2⟩

theorem step_item_lifecycle_witness :
    alGet c2State.videos "vid_shortA" = some c2Item ∧
    (c2Item.status = .approved ∨ c2Item.status = .rejected) ∧
    (∃ v', alGet (step c2Env 900 c2State false).1.videos "vid_shortA" = some v' ∧
       v'.status = c2Item.status) := by
  refine ⟨by decide, Or.inl (by decide), ?_⟩
  obtain ⟨v', hl, hs, _⟩ :=
    (step_item_lifecycle c2Env 900 c2State false "vid_shortA").1.2 c2Item (by decide)
  exact ⟨v', hl, hs (Or.inl (by decide))⟩

end Snap
